import Mathlib

/-!
Verification of the FinLinter detection engine against its specification.

The development shallowly embeds the core modules of the repository:
  * `finlinter/cost/estimator.py`   — the cost model,
  * `finlinter/core/python_scanner.py` — the AST-based Python scanner,
  * `finlinter/core/js_scanner.py`  — the line/regex-based JavaScript scanner,
  * `finlinter/core/java_scanner.py` — the line/regex-based Java scanner,
  * `finlinter/core/scanner_dispatch.py` — language detection and dispatch.

Python `float` arithmetic on the small decimal constants of the cost table is
modelled with exact rationals (`ℚ`).  Python's substring operator `x in y` is
modelled by `pyIn`.  The regular-expression library used by the lexical
scanners is not re-implemented: each scanned line is represented together
with the boolean outcome of every `regex.search(line)` call the scanner
performs on it (an oracle view of `re`), while all control flow, brace
counting, pattern tables, first-match logic and severity logic are embedded
directly from the source.
-/

/-- Contiguous-sublist test on character lists: does `a` occur inside `b`? -/
def charsIn (a : List Char) : List Char → Bool
  | [] => a.isEmpty
  | c :: cs => a.isPrefixOf (c :: cs) || charsIn a cs

/-- Python's substring test `a in b` on strings (`str.__contains__`). -/
def pyIn (a b : String) : Bool :=
  charsIn a.toList b.toList

/-- Python's `str.lower()` (same as `String.toLower`, implemented by
structural recursion over the character list so that concrete inputs
evaluate inside the kernel). -/
def strLower (s : String) : String :=
  String.mk (s.toList.map Char.toLower)

/-! ## Cost model (`finlinter/cost/estimator.py`) -/

/-- `CostCategory` enum from `estimator.py`. -/
inductive CostCategory where
  | database_read
  | database_write
  | api_call
  | serialization
  deriving DecidableEq, Repr

/-- The `.value` string of a `CostCategory` member. -/
def CostCategory.value : CostCategory → String
  | .database_read => "database_read"
  | .database_write => "database_write"
  | .api_call => "api_call"
  | .serialization => "serialization"

/-- `CostConfig.UNIT_COSTS` (defaults set in `__post_init__`), in ₹. -/
def UNIT_COSTS : List (CostCategory × ℚ) :=
  [(CostCategory.database_read, 0.002),
   (CostCategory.database_write, 0.004),
   (CostCategory.api_call, 0.01),
   (CostCategory.serialization, 0.0001)]

/-- `CostConfig.DEFAULT_LOOP_ITERATIONS`. -/
def DEFAULT_LOOP_ITERATIONS : Int := 100

/-- `self.config.UNIT_COSTS.get(category, 0.0)`. -/
def unitCostOf (c : CostCategory) : ℚ :=
  (UNIT_COSTS.lookup c).getD 0

/-- The `CostEstimate` dataclass. -/
structure CostEstimate where
  category : CostCategory
  unit_cost : ℚ
  iterations : Int
  per_execution_cost : ℚ
  monthly_cost : ℚ
  severity : String
  deriving DecidableEq, Repr

/-- `CostEstimator._calculate_severity`. -/
def calculateSeverity (monthly_cost : ℚ) : String :=
  if monthly_cost > 100 then "high"
  else if monthly_cost > 10 then "medium"
  else "low"

/-- `CostEstimator.estimate`.  The Python parameter `iterations:
Optional[int]` is combined with the default via `iterations = iterations or
self.config.DEFAULT_LOOP_ITERATIONS`, so both `None` and `0` (the falsy
values an `Optional[int]` can take) select the default of 100. -/
def CostEstimator.estimate (category : CostCategory) (iterations : Option Int := none) :
    CostEstimate :=
  let iters : Int :=
    match iterations with
    | none => DEFAULT_LOOP_ITERATIONS
    | some n => if n = 0 then DEFAULT_LOOP_ITERATIONS else n
  let unit_cost := unitCostOf category
  let per_execution_cost := unit_cost * iters
  let monthly_cost := per_execution_cost * 30
  { category := category
    unit_cost := unit_cost
    iterations := iters
    per_execution_cost := per_execution_cost
    monthly_cost := monthly_cost
    severity := calculateSeverity monthly_cost }

/-! ## Python scanner (`finlinter/core/python_scanner.py`) -/

namespace PyScan

/-- `DB_PATTERNS`: `(receiver_pattern, method_pattern) → description`, in
dict insertion order. -/
def DB_PATTERNS : List ((String × String) × String) :=
  [(("dynamodb", "get_item"), "DynamoDB get_item"),
   (("dynamodb", "query"), "DynamoDB query"),
   (("dynamodb", "scan"), "DynamoDB scan"),
   (("dynamodb", "put_item"), "DynamoDB put_item"),
   (("table", "get_item"), "DynamoDB get_item"),
   (("table", "query"), "DynamoDB query"),
   (("table", "scan"), "DynamoDB scan"),
   (("session", "query"), "SQLAlchemy query"),
   (("session", "execute"), "SQLAlchemy execute"),
   (("session", "get"), "SQLAlchemy get"),
   (("db", "get"), "Database get"),
   (("db", "query"), "Database query"),
   (("db", "execute"), "Database execute"),
   (("db", "find"), "Database find"),
   (("db", "find_one"), "Database find_one"),
   (("collection", "find"), "MongoDB find"),
   (("collection", "find_one"), "MongoDB find_one"),
   (("collection", "aggregate"), "MongoDB aggregate"),
   (("redis", "get"), "Redis get"),
   (("redis", "hget"), "Redis hget"),
   (("redis", "hgetall"), "Redis hgetall"),
   (("cursor", "execute"), "SQL cursor execute"),
   (("cursor", "fetchone"), "SQL cursor fetchone"),
   (("cursor", "fetchall"), "SQL cursor fetchall")]

/-- `API_PATTERNS`. -/
def API_PATTERNS : List ((String × String) × String) :=
  [(("requests", "get"), "HTTP GET request"),
   (("requests", "post"), "HTTP POST request"),
   (("requests", "put"), "HTTP PUT request"),
   (("requests", "delete"), "HTTP DELETE request"),
   (("requests", "patch"), "HTTP PATCH request"),
   (("httpx", "get"), "HTTPX GET request"),
   (("httpx", "post"), "HTTPX POST request"),
   (("client", "get"), "HTTP client GET"),
   (("client", "post"), "HTTP client POST"),
   (("session", "get"), "aiohttp GET"),
   (("session", "post"), "aiohttp POST"),
   (("urllib", "urlopen"), "urllib request"),
   (("request", "urlopen"), "urllib request"),
   (("client", "invoke"), "AWS Lambda invoke"),
   (("sns", "publish"), "AWS SNS publish"),
   (("sqs", "send_message"), "AWS SQS send")]

/-- `SERIALIZATION_PATTERNS`. -/
def SERIALIZATION_PATTERNS : List ((String × String) × String) :=
  [(("json", "dumps"), "JSON serialization"),
   (("json", "loads"), "JSON deserialization"),
   (("pickle", "dumps"), "Pickle serialization"),
   (("pickle", "loads"), "Pickle deserialization"),
   (("yaml", "dump"), "YAML serialization"),
   (("yaml", "load"), "YAML deserialization")]

/-- `UNBOUNDED_QUERY_PATTERNS`. -/
def UNBOUNDED_QUERY_PATTERNS : List ((String × String) × String) :=
  [(("cursor", "execute"), "SQL query"),
   (("cursor", "fetchall"), "SQL fetchall"),
   (("session", "query"), "ORM query"),
   (("session", "execute"), "SQLAlchemy execute"),
   (("collection", "find"), "MongoDB find"),
   (("db", "query"), "Database query"),
   (("db", "execute"), "Database execute"),
   (("db", "find"), "Database find"),
   (("table", "scan"), "DynamoDB scan")]

/-- `PAGINATION_KEYWORDS` (a Python `set`; only membership is ever used, so
the iteration order of the set does not matter). -/
def PAGINATION_KEYWORDS : List String :=
  ["limit", "offset", "top", "fetch", "first", "take",
   "page", "paginate", "pagination", "slice", "[:"]

/-- `HOT_PATH_KEYWORDS` (a Python `set`; only used through `any`). -/
def HOT_PATH_KEYWORDS : List String :=
  ["handle", "handler", "process", "controller", "endpoint",
   "route", "view", "api", "webhook", "lambda_handler",
   "main", "run", "execute", "dispatch", "serve"]

/-- The `PythonFinding` dataclass. -/
structure PythonFinding where
  line_number : Nat
  line_content : String
  rule_id : String
  rule_name : String
  description : String
  severity : String
  category : String
  suggestion : String
  deriving DecidableEq, Repr

mutual
/-- Embedded Python AST.  Constructors cover exactly the node shapes the
visitor distinguishes; every other node falls to `generic_visit`, which only
recurses into child nodes, and is represented by `node` with its child list.
`loopNode` stands for any of `ast.For`, `ast.While`, `ast.ListComp`,
`ast.DictComp`, `ast.SetComp`, `ast.GeneratorExp` — the visitor treats all
six identically (push loop context, visit all children, pop), with the
children listed in AST field order.  `functionDef` stands for
`ast.FunctionDef`/`ast.AsyncFunctionDef`.  `constOther` is a non-string
`ast.Constant`; its field carries `str(value)` as used when flattening an
f-string.  `joinedStr` is `ast.JoinedStr` with its `values` children. -/
inductive Py : Type where
  | functionDef (name : String) (children : PyList)
  | loopNode (children : PyList)
  | call (lineno : Nat) (func : Py) (args : PyList) (keywords : PyList)
  | name (id : String)
  | attribute (value : Py) (attr : String)
  | constStr (s : String)
  | constOther (repr : String)
  | joinedStr (values : PyList)
  | node (children : PyList)

/-- A list of child AST nodes (mutually inductive with `Py`). -/
inductive PyList : Type where
  | nil
  | cons (head : Py) (tail : PyList)
end

/-- Build a `PyList` from a `List Py`. -/
def PyList.ofList : List Py → PyList
  | [] => .nil
  | e :: es => .cons e (PyList.ofList es)

/-- Visitor state: `loop_stack` (only its length is ever consulted) and
`in_hot_path`.  `current_function` is tracked by the source but never read,
so it is omitted. -/
structure VState where
  loopDepth : Nat
  inHotPath : Bool

/-- `LoopVisitor._get_line_content` (1-indexed). -/
def getLineContent (sourceLines : List String) (lineno : Nat) : String :=
  if 1 ≤ lineno ∧ lineno ≤ sourceLines.length then
    sourceLines.getD (lineno - 1) ""
  else ""

/-- The severity adjustment inside `LoopVisitor._add_finding`: escalate a
"medium" finding to "high" when in a hot path. -/
def applyHotPath (inHotPath : Bool) (severity : String) : String :=
  if inHotPath ∧ severity = "medium" then "high" else severity

/-- `LoopVisitor._add_finding` (constructing the `PythonFinding`). -/
def addFinding (sourceLines : List String) (st : VState) (lineno : Nat)
    (rule_id rule_name description category severity suggestion : String) :
    PythonFinding :=
  { line_number := lineno
    line_content := getLineContent sourceLines lineno
    rule_id := rule_id
    rule_name := rule_name
    description := description
    severity := applyHotPath st.inHotPath severity
    category := category
    suggestion := suggestion }

/-- `LoopVisitor._matches_pattern`. -/
def matchesPattern (obj_name method_name obj_pattern method_pattern : String) : Bool :=
  (pyIn obj_pattern obj_name || pyIn obj_name obj_pattern || obj_pattern == "") &&
  (pyIn method_pattern method_name || pyIn method_name method_pattern)

/-- A `for (obj_pat, method_pat), desc in PATTERNS.items(): if
self._matches_pattern(...): ...; break` loop: the description of the first
matching rule, if any. -/
def findFirst (pats : List ((String × String) × String))
    (obj_name method_name : String) : Option String :=
  match pats with
  | [] => none
  | ((op, mp), desc) :: rest =>
      if matchesPattern obj_name method_name op mp then some desc
      else findFirst rest obj_name method_name

/-- `LoopVisitor._extract_call_pattern`, applied to the `func` child of the
call node. -/
def extractCallPattern : Py → Option (String × String)
  | .attribute value attr =>
      match value with
      | .name id => some (strLower id, strLower attr)
      | .attribute _ a => some (strLower a, strLower attr)
      | .call _ f _ _ =>
          match f with
          | .attribute _ a => some (strLower a, strLower attr)
          | _ => none
      | _ => none
  | .name id => some ("", strLower id)
  | _ => none

/-- The `ast.Constant` branches when flattening an `ast.JoinedStr`:
`str(value.value)` for each constant part, skipping formatted values. -/
def joinedConstParts : PyList → List String
  | .nil => []
  | .cons (.constStr s) t => s :: joinedConstParts t
  | .cons (.constOther r) t => r :: joinedConstParts t
  | .cons _ t => joinedConstParts t

/-- `LoopVisitor._extract_query_string`, applied to the call's positional
argument list. -/
def extractQueryString (args : PyList) : Option String :=
  match args with
  | .cons (.constStr s) _ => some (strLower s)
  | .cons (.joinedStr values) _ =>
      some (strLower (String.join (joinedConstParts values)))
  | _ => none

/-- `LoopVisitor._has_pagination`. -/
def hasPagination (query_str : String) : Bool :=
  PAGINATION_KEYWORDS.any fun kw => pyIn kw (strLower query_str)

/-- `LoopVisitor._check_unbounded_query`. -/
def checkUnboundedQuery (sourceLines : List String) (st : VState)
    (lineno : Nat) (obj_name method_name : String) (args : PyList) :
    List PythonFinding :=
  match findFirst UNBOUNDED_QUERY_PATTERNS obj_name method_name with
  | none => []
  | some desc =>
      match extractQueryString args with
      | none => []
      | some query_str =>
          if ¬ hasPagination query_str then
            [addFinding sourceLines st lineno "PY004" "Unbounded Query"
              (desc ++ " without LIMIT or pagination. May return excessive data and incur high costs.")
              "database_read" "medium"
              "Add LIMIT or implement pagination to prevent full table scans."]
          else []

/-- The three loop-dependent category checks of `LoopVisitor.visit_Call`
(database, API, serialization), each a first-match-wins scan of its table. -/
def callLoopChecks (sourceLines : List String) (st : VState) (lineno : Nat)
    (obj_name method_name : String) : List PythonFinding :=
  (match findFirst DB_PATTERNS obj_name method_name with
   | some desc =>
      [addFinding sourceLines st lineno "PY001" "Database Call in Loop"
        (desc ++ " called inside a loop. Each iteration triggers a database operation.")
        "database_read" "high"
        "Use JOIN or IN query to batch database operations, or use batch APIs like batch_get_item."]
   | none => []) ++
  (match findFirst API_PATTERNS obj_name method_name with
   | some desc =>
      [addFinding sourceLines st lineno "PY002" "API Call in Loop"
        (desc ++ " called inside a loop. Each iteration makes an external API call.")
        "api_call" "high"
        "Use a bulk or batch API endpoint to reduce call count."]
   | none => []) ++
  (match findFirst SERIALIZATION_PATTERNS obj_name method_name with
   | some desc =>
      [addFinding sourceLines st lineno "PY003" "Serialization in Loop"
        (desc ++ " called inside a loop. Repeated serialization is CPU-intensive.")
        "serialization" "medium"
        "Move serialization outside the loop if possible, or serialize a batch at once."]
   | none => [])

/-- `any(kw in node.name.lower() for kw in HOT_PATH_KEYWORDS)`. -/
def isHotName (name : String) : Bool :=
  HOT_PATH_KEYWORDS.any fun kw => pyIn kw (strLower name)

mutual
/-- Dispatch of `LoopVisitor.visit` on a single node: the specific
`visit_*` methods of the source, falling back to `generic_visit`. -/
def visit (sourceLines : List String) (st : VState) : Py → List PythonFinding
  | .functionDef nm children =>
      visitList sourceLines { st with inHotPath := isHotName nm } children
  | .loopNode children =>
      visitList sourceLines { st with loopDepth := st.loopDepth + 1 } children
  | .call lineno func args keywords =>
      (match extractCallPattern func with
       | some (obj_name, method_name) =>
          checkUnboundedQuery sourceLines st lineno obj_name method_name args ++
          (if st.loopDepth = 0 then []
           else callLoopChecks sourceLines st lineno obj_name method_name)
       | none => []) ++
      (visit sourceLines st func ++
       (visitList sourceLines st args ++ visitList sourceLines st keywords))
  | .name _ => []
  | .attribute value _ => visit sourceLines st value
  | .constStr _ => []
  | .constOther _ => []
  | .joinedStr values => visitList sourceLines st values
  | .node children => visitList sourceLines st children

/-- `generic_visit` over a child list: findings in traversal order. -/
def visitList (sourceLines : List String) (st : VState) : PyList → List PythonFinding
  | .nil => []
  | .cons h t => visit sourceLines st h ++ visitList sourceLines st t
end

/-- Running `LoopVisitor` on a parsed module (`visitor.visit(tree)`):
`ast.Module` has no dedicated visitor, so `generic_visit` walks its body
with the initial state (empty loop stack, not in a hot path). -/
def runVisitor (sourceLines : List String) (body : PyList) : List PythonFinding :=
  visitList sourceLines { loopDepth := 0, inHotPath := false } body

end PyScan

/-! ## Dispatch-level data model (`finlinter/core/scanner_dispatch.py`) -/

/-- The `Language` enum (scoped under `Dispatch`, since the plain name is
taken by Mathlib). -/
inductive Dispatch.Language where
  | python
  | javascript
  | java
  | unknown
  deriving DecidableEq, Repr

/-- The dispatch-level `Finding` dataclass.  `estimated_cost` is kept as the
structured `CostEstimate` (the source stores `estimate.to_dict()`, a pure
reformatting of the same data). -/
structure Finding where
  file_path : String
  line_number : Nat
  line_content : String
  rule_id : String
  rule_name : String
  description : String
  severity : String
  category : String
  suggestion : String
  estimated_cost : Option CostEstimate := none
  deriving DecidableEq, Repr

/-- The `ScanResult` dataclass.  `scan_time_ms` (wall-clock time) is not
modelled. -/
structure ScanResult where
  file_path : String
  language : Dispatch.Language
  findings : List Finding := []
  error : Option String := none
  deriving DecidableEq, Repr

/-! ## `PythonScanner.scan` -/

namespace PyScan

/-- `PythonScanner.cost_category_map`. -/
def cost_category_map : List (String × CostCategory) :=
  [("database_read", CostCategory.database_read),
   ("database_write", CostCategory.database_write),
   ("api_call", CostCategory.api_call),
   ("serialization", CostCategory.serialization)]

/-- The conversion loop at the end of `PythonScanner.scan`: attach a cost
estimate when the finding's category is in `cost_category_map`, upgrading
the severity when the estimate's severity is "high" or "critical". -/
def convertFinding (file_path : String) (pf : PythonFinding) : Finding :=
  let cost_category := cost_category_map.lookup pf.category
  let cost_estimate := cost_category.map fun cc => CostEstimator.estimate cc none
  let severity :=
    match cost_estimate with
    | some est =>
        if est.severity = "high" ∨ est.severity = "critical" then est.severity
        else pf.severity
    | none => pf.severity
  { file_path := file_path
    line_number := pf.line_number
    line_content := pf.line_content
    rule_id := pf.rule_id
    rule_name := pf.rule_name
    description := pf.description
    severity := severity
    category := pf.category
    suggestion := pf.suggestion
    estimated_cost := cost_estimate }

end PyScan

/-- A Python source unit as received by `PythonScanner.scan`: the raw text
together with the outcome of `ast.parse(code)` (`none` models a
`SyntaxError`).  `sourceLines` is `code.splitlines()`. -/
structure PySource where
  text : String
  parse : Option PyScan.PyList

/-- Split a character list at newline characters. -/
def splitLinesAux : List Char → List Char → List String
  | [], acc => [String.mk acc.reverse]
  | c :: cs, acc =>
      if c = Char.ofNat 10 then String.mk acc.reverse :: splitLinesAux cs []
      else splitLinesAux cs (c :: acc)

/-- `code.splitlines()` (newline splitting, implemented structurally). -/
def splitLines (code : String) : List String :=
  splitLinesAux code.toList []

/-- `PythonScanner.scan`: empty findings on a syntax error, otherwise run
the visitor and convert its findings. -/
def pythonScan (src : PySource) (file_path : String) : List Finding :=
  match src.parse with
  | none => []
  | some body =>
      (PyScan.runVisitor (splitLines src.text) body).map
        (PyScan.convertFinding file_path)

/-! ## JavaScript scanner (`finlinter/core/js_scanner.py`)

The scanner works line by line: it splits the code, counts literal brace
characters per line, and runs compiled regular expressions against each
line.  A scanned line is embedded as its raw text together with the boolean
result of `regex.search(line)` for each pattern table entry (hit lists are
indexed like the tables; missing entries count as no match), and the result
of `self._is_hot_path(lines, i)` for the line.  Everything else — the brace
state machine, loop marking, per-category first-match scans, severities,
categories and cost attachment — is embedded from the source. -/

namespace JsScan

/-- `LOOP_PATTERNS` (regex source strings). -/
def LOOP_PATTERNS : List String :=
  ["\\bfor\\s*\\(", "\\bwhile\\s*\\(", "\\bdo\\s*\\\x7b", "\\.forEach\\s*\\(",
   "\\.map\\s*\\(", "\\.filter\\s*\\(", "\\.reduce\\s*\\(", "\\.some\\s*\\(",
   "\\.every\\s*\\(", "\\.find\\s*\\(", "\\.findIndex\\s*\\(",
   "\\bfor\\s+\\w+\\s+of\\b", "\\bfor\\s+\\w+\\s+in\\b"]

/-- `API_CALL_PATTERNS`. -/
def API_CALL_PATTERNS : List (String × String) :=
  [("\\bfetch\\s*\\(", "fetch() call"),
   ("\\baxios\\s*\\.\\s*(get|post|put|delete|patch|request)\\s*\\(", "axios HTTP call"),
   ("\\baxios\\s*\\(", "axios HTTP call"),
   ("\\bhttp\\s*\\.\\s*(get|post|put|delete|patch)\\s*\\(", "HTTP library call"),
   ("\\brequest\\s*\\(", "request() call"),
   ("\\bgot\\s*\\(", "got() HTTP call"),
   ("\\bsuperagent\\s*\\.", "superagent HTTP call"),
   ("\\$\\.ajax\\s*\\(", "jQuery AJAX call"),
   ("\\$\\.(get|post)\\s*\\(", "jQuery HTTP call")]

/-- `DB_PATTERNS` of the JavaScript scanner. -/
def DB_PATTERNS : List (String × String) :=
  [("\\.find\\s*\\(", "MongoDB find()"),
   ("\\.findOne\\s*\\(", "MongoDB findOne()"),
   ("\\.findById\\s*\\(", "MongoDB findById()"),
   ("\\.findMany\\s*\\(", "Database findMany()"),
   ("\\.aggregate\\s*\\(", "MongoDB aggregate()"),
   ("\\.updateOne\\s*\\(", "MongoDB updateOne()"),
   ("\\.updateMany\\s*\\(", "MongoDB updateMany()"),
   ("\\.deleteOne\\s*\\(", "MongoDB deleteOne()"),
   ("\\.collection\\s*\\([^)]*\\)\\s*\\.", "MongoDB collection operation"),
   ("\\bquery\\s*\\(", "Database query()"),
   ("\\.execute\\s*\\(", "Database execute()"),
   ("DynamoDB\\s*\\.\\s*(get|put|query|scan)", "DynamoDB operation"),
   ("dynamodb\\s*\\.\\s*(get|put|query|scan)", "DynamoDB operation"),
   ("\\.getItem\\s*\\(", "DynamoDB getItem()"),
   ("\\.putItem\\s*\\(", "DynamoDB putItem()"),
   ("redis\\s*\\.\\s*(get|set|hget|hset)", "Redis operation")]

/-- `PROMISE_PATTERNS`. -/
def PROMISE_PATTERNS : List (String × String) :=
  [("new\\s+Promise\\s*\\(", "Promise creation"),
   ("Promise\\s*\\.\\s*all\\s*\\(", "Promise.all()"),
   ("Promise\\s*\\.\\s*race\\s*\\(", "Promise.race()"),
   ("\\basync\\s+\\(", "async arrow function"),
   ("\\bawait\\s+", "await expression")]

/-- `SERIALIZATION_PATTERNS` of the JavaScript scanner. -/
def SERIALIZATION_PATTERNS : List (String × String) :=
  [("JSON\\s*\\.\\s*parse\\s*\\(", "JSON.parse()"),
   ("JSON\\s*\\.\\s*stringify\\s*\\(", "JSON.stringify()")]

/-- The `JSFinding` dataclass. -/
structure JSFinding where
  line_number : Nat
  line_content : String
  rule_id : String
  rule_name : String
  description : String
  severity : String
  category : String
  suggestion : String
  deriving DecidableEq, Repr

/-- One scanned line: raw text plus the regex-search oracle results.
`loopStart` is `self._is_loop_start(line)`; each `*Hits` list records
`regex.search(line)` per entry of the corresponding table; `hotCtx` is
`self._is_hot_path(lines, i)` (search of the hot-path regexes over the up to
20 preceding lines). -/
structure JsLine where
  content : String
  loopStart : Bool
  apiHits : List Bool := []
  dbHits : List Bool := []
  promiseHits : List Bool := []
  serialHits : List Bool := []
  hotCtx : Bool := false
  deriving DecidableEq, Repr

/-- Count occurrences of a character in a string (`line.count(c)`). -/
def countChar (c : Char) (s : String) : Nat :=
  (s.toList.filter (· = c)).length

/-- The close-brace loop of the first pass, run once per `'\x7d'` in the
line: `if brace_stack and loop_depth > 0: brace_stack.pop(); loop_depth =
brace_stack[-1] if brace_stack else 0`.  The stack is kept top-first. -/
def popBraces : Nat → Nat × List Nat → Nat × List Nat
  | 0, s => s
  | n + 1, (loop_depth, brace_stack) =>
      popBraces n
        (if brace_stack ≠ [] ∧ loop_depth > 0 then
          match brace_stack.tail with
          | [] => (0, [])
          | d :: rest => (d, d :: rest)
        else (loop_depth, brace_stack))

/-- First pass of `JavaScriptScanner.scan`: mark, per line, whether the
line is inside a loop.  A loop-start line pushes the incremented depth; the
line is marked with the depth before close braces are processed (the
`loop_depth > 0` membership test precedes the close-brace loop in the
source; the open-brace count is computed by the source but never used). -/
def markLines : Nat → List Nat → List JsLine → List (JsLine × Bool)
  | _, _, [] => []
  | loop_depth, brace_stack, l :: rest =>
      let (d1, s1) :=
        if l.loopStart then (loop_depth + 1, (loop_depth + 1) :: brace_stack)
        else (loop_depth, brace_stack)
      let inLoop := d1 > 0
      let (d2, s2) := popBraces (countChar (Char.ofNat 125) l.content) (d1, s1)
      (l, inLoop) :: markLines d2 s2 rest

/-- First-match-wins scan of a `(pattern, desc)` table against a line's hit
list: the description of the first entry whose regex matched. -/
def firstHit : List (String × String) → List Bool → Option String
  | [], _ => none
  | (_, desc) :: rest, hits =>
      match hits with
      | [] => none
      | b :: bs => if b then some desc else firstHit rest bs

/-- The promise-pattern loop of the second pass.  The `break` sits inside
the inner conditional, so entries that match but fail either guard do not
stop the iteration. -/
def promiseHitDesc : List (String × String) → List Bool → Option String
  | [], _ => none
  | (_, desc) :: rest, hits =>
      match hits with
      | [] => none
      | b :: bs =>
          if b ∧ ¬ pyIn "await" desc then
            if pyIn "creation" desc ∨ pyIn "async" (strLower desc) then some desc
            else promiseHitDesc rest bs
          else promiseHitDesc rest bs

/-- Second pass of `JavaScriptScanner.scan`, for one line: the findings it
contributes (nothing when not in a loop). -/
def lineFindings (i : Nat) (l : JsLine) (inLoop : Bool) : List JSFinding :=
  if ¬ inLoop then []
  else
    let line_num := i + 1
    let is_hot_path := l.hotCtx
    (match firstHit API_CALL_PATTERNS l.apiHits with
     | some desc =>
        [{ line_number := line_num, line_content := l.content,
           rule_id := "JS001", rule_name := "API Call in Loop",
           description := desc ++ " detected inside a loop. Each iteration makes a network request.",
           severity := if is_hot_path then "high" else "high",
           category := "api_call",
           suggestion := "Move the API call outside the loop, or use Promise.all() after collecting all requests." }]
     | none => []) ++
    (match firstHit DB_PATTERNS l.dbHits with
     | some desc =>
        [{ line_number := line_num, line_content := l.content,
           rule_id := "JS002", rule_name := "Database Call in Loop",
           description := desc ++ " detected inside a loop. Each iteration queries the database.",
           severity := if is_hot_path then "high" else "high",
           category := "database_read",
           suggestion := "Use batch operations or aggregate queries instead of individual calls per iteration." }]
     | none => []) ++
    (match promiseHitDesc PROMISE_PATTERNS l.promiseHits with
     | some desc =>
        [{ line_number := line_num, line_content := l.content,
           rule_id := "JS003", rule_name := "Async Fan-out in Loop",
           description := desc ++ " inside a loop creates unbounded concurrent operations.",
           severity := "medium",
           category := "api_call",
           suggestion := "Collect promises and use Promise.all() with concurrency limits, or use for...of with await." }]
     | none => []) ++
    (match firstHit SERIALIZATION_PATTERNS l.serialHits with
     | some desc =>
        [{ line_number := line_num, line_content := l.content,
           rule_id := "JS004", rule_name := "Serialization in Loop",
           description := desc ++ " inside a loop. Repeated serialization is CPU-intensive.",
           severity := "medium",
           category := "serialization",
           suggestion := "Move serialization outside the loop if possible, or batch serialize." }]
     | none => [])

/-- Second pass over all marked lines, `i` counting from 0. -/
def secondPass : Nat → List (JsLine × Bool) → List JSFinding
  | _, [] => []
  | i, (l, inLoop) :: rest => lineFindings i l inLoop ++ secondPass (i + 1) rest

/-- The raw findings of `JavaScriptScanner.scan` before conversion. -/
def scanInternal (lines : List JsLine) : List JSFinding :=
  secondPass 0 (markLines 0 [] lines)

/-- `JavaScriptScanner.cost_category_map`. -/
def cost_category_map : List (String × CostCategory) :=
  [("database_read", CostCategory.database_read),
   ("api_call", CostCategory.api_call),
   ("serialization", CostCategory.serialization)]

/-- The conversion loop at the end of `JavaScriptScanner.scan`. -/
def convertFinding (file_path : String) (jf : JSFinding) : Finding :=
  let cost_estimate :=
    (cost_category_map.lookup jf.category).map fun cc => CostEstimator.estimate cc none
  { file_path := file_path
    line_number := jf.line_number
    line_content := jf.line_content
    rule_id := jf.rule_id
    rule_name := jf.rule_name
    description := jf.description
    severity := jf.severity
    category := jf.category
    suggestion := jf.suggestion
    estimated_cost := cost_estimate }

end JsScan

/-- `JavaScriptScanner.scan`. -/
def jsScan (lines : List JsScan.JsLine) (file_path : String) : List Finding :=
  (JsScan.scanInternal lines).map (JsScan.convertFinding file_path)

/-! ## Java scanner (`finlinter/core/java_scanner.py`)

Embedded in the same style as the JavaScript scanner: raw line text plus
regex-search oracle results per pattern table. -/

namespace JavaScan

/-- `LOOP_PATTERNS` of the Java scanner (regex source strings). -/
def LOOP_PATTERNS : List String :=
  ["\\bfor\\s*\\(", "\\bwhile\\s*\\(", "\\bdo\\s*\\\x7b", "\\.forEach\\s*\\(",
   "\\.stream\\s*\\(\\s*\\)\\s*\\.", "\\.parallelStream\\s*\\(\\s*\\)\\s*\\."]

/-- `SPRING_DATA_PATTERNS`. -/
def SPRING_DATA_PATTERNS : List (String × String) :=
  [("repository\\s*\\.\\s*find", "Spring Data Repository find"),
   ("repository\\s*\\.\\s*findById", "Spring Data findById()"),
   ("repository\\s*\\.\\s*findAll", "Spring Data findAll()"),
   ("repository\\s*\\.\\s*findBy\\w+", "Spring Data findBy*()"),
   ("repository\\s*\\.\\s*get", "Spring Data Repository get"),
   ("repository\\s*\\.\\s*save", "Spring Data Repository save"),
   ("repository\\s*\\.\\s*delete", "Spring Data Repository delete"),
   ("Repo\\s*\\.\\s*find", "Repository find"),
   ("Dao\\s*\\.\\s*find", "DAO find"),
   ("Dao\\s*\\.\\s*get", "DAO get"),
   ("entityManager\\s*\\.\\s*find", "JPA EntityManager find"),
   ("entityManager\\s*\\.\\s*createQuery", "JPA EntityManager createQuery"),
   ("session\\s*\\.\\s*get", "Hibernate Session get"),
   ("session\\s*\\.\\s*load", "Hibernate Session load"),
   ("session\\s*\\.\\s*createQuery", "Hibernate Session createQuery")]

/-- `REST_TEMPLATE_PATTERNS`. -/
def REST_TEMPLATE_PATTERNS : List (String × String) :=
  [("restTemplate\\s*\\.\\s*getForObject", "RestTemplate getForObject()"),
   ("restTemplate\\s*\\.\\s*getForEntity", "RestTemplate getForEntity()"),
   ("restTemplate\\s*\\.\\s*postForObject", "RestTemplate postForObject()"),
   ("restTemplate\\s*\\.\\s*postForEntity", "RestTemplate postForEntity()"),
   ("restTemplate\\s*\\.\\s*exchange", "RestTemplate exchange()"),
   ("restTemplate\\s*\\.\\s*execute", "RestTemplate execute()"),
   ("restTemplate\\s*\\.\\s*delete", "RestTemplate delete()"),
   ("restTemplate\\s*\\.\\s*put", "RestTemplate put()"),
   ("webClient\\s*\\.\\s*get", "WebClient GET"),
   ("webClient\\s*\\.\\s*post", "WebClient POST"),
   ("httpClient\\s*\\.\\s*execute", "HttpClient execute"),
   ("HttpURLConnection", "HttpURLConnection"),
   ("\\.openConnection\\s*\\(", "URL openConnection()")]

/-- `OBJECT_MAPPER_PATTERNS`. -/
def OBJECT_MAPPER_PATTERNS : List (String × String) :=
  [("objectMapper\\s*\\.\\s*writeValueAsString", "ObjectMapper writeValueAsString()"),
   ("objectMapper\\s*\\.\\s*writeValueAsBytes", "ObjectMapper writeValueAsBytes()"),
   ("objectMapper\\s*\\.\\s*readValue", "ObjectMapper readValue()"),
   ("objectMapper\\s*\\.\\s*readTree", "ObjectMapper readTree()"),
   ("mapper\\s*\\.\\s*writeValueAsString", "ObjectMapper writeValueAsString()"),
   ("mapper\\s*\\.\\s*readValue", "ObjectMapper readValue()"),
   ("gson\\s*\\.\\s*toJson", "Gson toJson()"),
   ("gson\\s*\\.\\s*fromJson", "Gson fromJson()"),
   ("Gson\\s*\\(\\s*\\)\\s*\\.\\s*toJson", "Gson toJson()")]

/-- `JDBC_PATTERNS`. -/
def JDBC_PATTERNS : List (String × String) :=
  [("jdbcTemplate\\s*\\.\\s*query", "JdbcTemplate query()"),
   ("jdbcTemplate\\s*\\.\\s*queryForObject", "JdbcTemplate queryForObject()"),
   ("jdbcTemplate\\s*\\.\\s*queryForList", "JdbcTemplate queryForList()"),
   ("jdbcTemplate\\s*\\.\\s*update", "JdbcTemplate update()"),
   ("jdbcTemplate\\s*\\.\\s*execute", "JdbcTemplate execute()"),
   ("statement\\s*\\.\\s*executeQuery", "Statement executeQuery()"),
   ("statement\\s*\\.\\s*execute", "Statement execute()"),
   ("preparedStatement\\s*\\.\\s*executeQuery", "PreparedStatement executeQuery()"),
   ("preparedStatement\\s*\\.\\s*execute", "PreparedStatement execute()"),
   ("connection\\s*\\.\\s*prepareStatement", "Connection prepareStatement()"),
   ("resultSet\\s*\\.\\s*next", "ResultSet iteration")]

/-- `AWS_PATTERNS`. -/
def AWS_PATTERNS : List (String × String) :=
  [("dynamoDb\\s*\\.\\s*getItem", "DynamoDB getItem()"),
   ("dynamoDb\\s*\\.\\s*putItem", "DynamoDB putItem()"),
   ("dynamoDb\\s*\\.\\s*query", "DynamoDB query()"),
   ("dynamoDb\\s*\\.\\s*scan", "DynamoDB scan()"),
   ("s3Client\\s*\\.\\s*getObject", "S3 getObject()"),
   ("s3Client\\s*\\.\\s*putObject", "S3 putObject()"),
   ("snsClient\\s*\\.\\s*publish", "SNS publish()"),
   ("sqsClient\\s*\\.\\s*sendMessage", "SQS sendMessage()"),
   ("lambdaClient\\s*\\.\\s*invoke", "Lambda invoke()")]

/-- The `JavaFinding` dataclass. -/
structure JavaFinding where
  line_number : Nat
  line_content : String
  rule_id : String
  rule_name : String
  description : String
  severity : String
  category : String
  suggestion : String
  deriving DecidableEq, Repr

/-- One scanned Java line: raw text plus regex-search oracle results per
pattern table, `loopStart` for `self._is_loop_start(line)` and `hotCtx` for
`self._is_hot_path(lines, i)` (up to 30 preceding lines). -/
structure JavaLine where
  content : String
  loopStart : Bool
  springHits : List Bool := []
  restHits : List Bool := []
  mapperHits : List Bool := []
  jdbcHits : List Bool := []
  awsHits : List Bool := []
  hotCtx : Bool := false
  deriving DecidableEq, Repr

/-- The `while loop_start_depths and brace_depth < loop_start_depths[-1]`
loop inside `_find_loops`: pop recorded floors and decrement the loop depth
(`max(0, loop_depth - 1)` is ℕ subtraction). -/
def popFloors (brace_depth : Int) : List Int → Nat → List Int × Nat
  | [], loop_depth => ([], loop_depth)
  | f :: fs, loop_depth =>
      if brace_depth < f then popFloors brace_depth fs (loop_depth - 1)
      else (f :: fs, loop_depth)

/-- Per-character brace tracking of `_find_loops`: state is
`(brace_depth, loop_start_depths, loop_depth)` with the floor stack kept
top-first. -/
def charStep (s : Int × List Int × Nat) (c : Char) : Int × List Int × Nat :=
  let (brace_depth, floors, loop_depth) := s
  if c = Char.ofNat 123 then (brace_depth + 1, floors, loop_depth)
  else if c = Char.ofNat 125 then
    let bd := brace_depth - 1
    let (floors2, ld2) := popFloors bd floors loop_depth
    (bd, floors2, ld2)
  else (brace_depth, floors, loop_depth)

/-- `JavaScanner._find_loops`, producing the in-loop flag per line: a
loop-start line records the current brace depth as a floor before the
line's characters are counted; the line is marked in-loop from the state
after its characters are processed. -/
def markLines : Int → List Int → Nat → List JavaLine → List (JavaLine × Bool)
  | _, _, _, [] => []
  | brace_depth, floors, loop_depth, l :: rest =>
      let (ld1, fl1) :=
        if l.loopStart then (loop_depth + 1, brace_depth :: floors)
        else (loop_depth, floors)
      let (bd2, fl2, ld2) := l.content.toList.foldl charStep (brace_depth, fl1, ld1)
      (l, ld2 > 0) :: markLines bd2 fl2 ld2 rest

/-- The JDBC-pattern loop of the scan: a matching entry whose description
mentions "ResultSet" is skipped by `continue` (no `break`), so the
iteration keeps going. -/
def jdbcHitDesc : List (String × String) → List Bool → Option String
  | [], _ => none
  | (_, desc) :: rest, hits =>
      match hits with
      | [] => none
      | b :: bs =>
          if b then
            if pyIn "ResultSet" desc then jdbcHitDesc rest bs else some desc
          else jdbcHitDesc rest bs

/-- Second pass of `JavaScanner.scan`, for one line. -/
def lineFindings (i : Nat) (l : JavaLine) (inLoop : Bool) : List JavaFinding :=
  if ¬ inLoop then []
  else
    let line_num := i + 1
    let is_hot_path := l.hotCtx
    let base_severity := if is_hot_path then "high" else "high"
    (match JsScan.firstHit SPRING_DATA_PATTERNS l.springHits with
     | some desc =>
        [{ line_number := line_num, line_content := l.content,
           rule_id := "JAVA001", rule_name := "Spring Data Call in Loop",
           description := desc ++ " detected inside a loop. Each iteration queries the database.",
           severity := base_severity,
           category := "database_read",
           suggestion := "Use batch operations like findAllById() or custom batch queries instead." }]
     | none => []) ++
    (match JsScan.firstHit REST_TEMPLATE_PATTERNS l.restHits with
     | some desc =>
        [{ line_number := line_num, line_content := l.content,
           rule_id := "JAVA002", rule_name := "HTTP Call in Loop",
           description := desc ++ " detected inside a loop. Each iteration makes an HTTP request.",
           severity := base_severity,
           category := "api_call",
           suggestion := "Batch API calls or use async/parallel execution with WebClient." }]
     | none => []) ++
    (match JsScan.firstHit OBJECT_MAPPER_PATTERNS l.mapperHits with
     | some desc =>
        [{ line_number := line_num, line_content := l.content,
           rule_id := "JAVA003", rule_name := "Serialization in Loop",
           description := desc ++ " detected inside a loop. Repeated JSON serialization is CPU-intensive.",
           severity := "medium",
           category := "serialization",
           suggestion := "Batch serialize by collecting objects into a list and serializing once." }]
     | none => []) ++
    (match jdbcHitDesc JDBC_PATTERNS l.jdbcHits with
     | some desc =>
        [{ line_number := line_num, line_content := l.content,
           rule_id := "JAVA004", rule_name := "JDBC Call in Loop",
           description := desc ++ " detected inside a loop. Each iteration executes a database query.",
           severity := base_severity,
           category := "database_read",
           suggestion := "Use batch operations or prepare the query once outside the loop." }]
     | none => []) ++
    (match JsScan.firstHit AWS_PATTERNS l.awsHits with
     | some desc =>
        [{ line_number := line_num, line_content := l.content,
           rule_id := "JAVA005", rule_name := "AWS SDK Call in Loop",
           description := desc ++ " detected inside a loop. Each iteration makes an AWS API call.",
           severity := base_severity,
           category := if pyIn "DynamoDB" desc then "database_read" else "api_call",
           suggestion := "Use batch operations like BatchGetItem or batch write for DynamoDB." }]
     | none => [])

/-- Second pass over all marked lines. -/
def secondPass : Nat → List (JavaLine × Bool) → List JavaFinding
  | _, [] => []
  | i, (l, inLoop) :: rest => lineFindings i l inLoop ++ secondPass (i + 1) rest

/-- The raw findings of `JavaScanner.scan` before conversion. -/
def scanInternal (lines : List JavaLine) : List JavaFinding :=
  secondPass 0 (markLines 0 [] 0 lines)

/-- `JavaScanner.cost_category_map`. -/
def cost_category_map : List (String × CostCategory) :=
  [("database_read", CostCategory.database_read),
   ("api_call", CostCategory.api_call),
   ("serialization", CostCategory.serialization)]

/-- The conversion loop at the end of `JavaScanner.scan`. -/
def convertFinding (file_path : String) (jf : JavaFinding) : Finding :=
  let cost_estimate :=
    (cost_category_map.lookup jf.category).map fun cc => CostEstimator.estimate cc none
  { file_path := file_path
    line_number := jf.line_number
    line_content := jf.line_content
    rule_id := jf.rule_id
    rule_name := jf.rule_name
    description := jf.description
    severity := jf.severity
    category := jf.category
    suggestion := jf.suggestion
    estimated_cost := cost_estimate }

end JavaScan

/-- `JavaScanner.scan`. -/
def javaScan (lines : List JavaScan.JavaLine) (file_path : String) : List Finding :=
  (JavaScan.scanInternal lines).map (JavaScan.convertFinding file_path)

/-! ## Dispatcher (`finlinter/core/scanner_dispatch.py`) -/

namespace Dispatch

/-- `EXTENSION_MAP`. -/
def EXTENSION_MAP : List (String × Language) :=
  [(".py", Language.python),
   (".pyw", Language.python),
   (".js", Language.javascript),
   (".mjs", Language.javascript),
   (".cjs", Language.javascript),
   (".jsx", Language.javascript),
   (".ts", Language.javascript),
   (".tsx", Language.javascript),
   (".java", Language.java)]

/-- Index of the last occurrence of a character in a list, if any. -/
def lastIdxOf (c : Char) (cs : List Char) : Option Nat :=
  (cs.reverse.indexOf? c).map fun j => cs.length - 1 - j

/-- The final path component (the part after the last slash). -/
def pathName (p : String) : String :=
  match lastIdxOf (Char.ofNat 47) p.toList with
  | some i => String.mk (p.toList.drop (i + 1))
  | none => p

/-- `Path(file_path).suffix`: the extension of the final component,
including the dot; empty when the last dot is the first character of the
name or the final character (pathlib requires `0 < i < len(name) - 1` for
the dot position `i`). -/
def pathSuffix (p : String) : String :=
  let nm := (pathName p).toList
  match lastIdxOf (Char.ofNat 46) nm with
  | some i => if 0 < i ∧ i < nm.length - 1 then String.mk (nm.drop i) else ""
  | none => ""

/-- The Python-indicator list of `_detect_from_content`. -/
def python_indicators : List String :=
  ["def ", "import ", "from ", "class ", "::", "self.",
   "elif ", "except:", "with open", "__init__"]

/-- The JavaScript-indicator list. -/
def js_indicators : List String :=
  ["const ", "let ", "var ", "function ", "=> ",
   "require(", "import ", "export ", "async ", "await ",
   "console.log", ".then(", ".catch("]

/-- The Java-indicator list. -/
def java_indicators : List String :=
  ["public class", "private ", "protected ", "static void main",
   "system.out", "@override", "@autowired", "new ",
   "throws ", "implements ", "extends "]

/-- `sum(1 for ind in indicators if ind in code_lower)`. -/
def indicatorScore (indicators : List String) (code_lower : String) : Nat :=
  (indicators.filter fun ind => pyIn ind code_lower).length

/-- `ScannerDispatch._detect_from_content`: score the lower-cased content
against the three indicator lists; all-zero means `Unknown`, otherwise the
first language (in the `scores` dict insertion order Python, JavaScript,
Java) reaching the maximum wins. -/
def detectFromContent (code : String) : Language :=
  let code_lower := strLower code
  let python_score := indicatorScore python_indicators code_lower
  let js_score := indicatorScore js_indicators code_lower
  let java_score := indicatorScore java_indicators code_lower
  let max_score := max python_score (max js_score java_score)
  if max_score = 0 then Language.unknown
  else if python_score = max_score then Language.python
  else if js_score = max_score then Language.javascript
  else if java_score = max_score then Language.java
  else Language.unknown

/-- `ScannerDispatch.detect_language`.  `if file_path:` and `if code:` are
Python truthiness tests, so `none` and the empty string behave alike; an
extension present in `EXTENSION_MAP` returns immediately, otherwise the
content heuristics run. -/
def detect_language (file_path : Option String := none) (code : Option String := none) :
    Language :=
  let byExt : Option Language :=
    match file_path with
    | some p =>
        if p ≠ "" then EXTENSION_MAP.lookup (strLower (pathSuffix p)) else none
    | none => none
  match byExt with
  | some lang => lang
  | none =>
      match code with
      | some c => if c ≠ "" then detectFromContent c else Language.unknown
      | none => Language.unknown

end Dispatch

/-- A source unit handed to `ScannerDispatch.scan_code`: the raw text
together with the structured views each concrete scanner consumes (the
`ast.parse` outcome for Python, the per-line regex oracle views for
JavaScript and Java). -/
structure SourceInput where
  text : String
  pyParse : Option PyScan.PyList := none
  jsLines : List JsScan.JsLine := []
  javaLines : List JavaScan.JavaLine := []

/-- The language-resolution step of `ScannerDispatch.scan_code`: a missing
or `Unknown` language argument triggers detection.  (The `language`
argument models the already-normalized enum value; string normalization
that fails produces `none`, exactly as in the source.) -/
def resolveLanguage (src : SourceInput) (language : Option Dispatch.Language)
    (file_path : String) : Dispatch.Language :=
  match language with
  | none => Dispatch.detect_language (some file_path) (some src.text)
  | some Dispatch.Language.unknown =>
      Dispatch.detect_language (some file_path) (some src.text)
  | some l => l

/-- The `self.scanners.get(language)` dispatch plus `scanner.scan(code,
file_path)` call of `scan_code`. -/
def runScanner (src : SourceInput) (lang : Dispatch.Language)
    (file_path : String) : List Finding :=
  match lang with
  | Dispatch.Language.python =>
      pythonScan { text := src.text, parse := src.pyParse } file_path
  | Dispatch.Language.javascript => jsScan src.jsLines file_path
  | Dispatch.Language.java => javaScan src.javaLines file_path
  | Dispatch.Language.unknown => []

/-- `ScannerDispatch.scan_code`: `Unknown` after resolution short-circuits
with an error result; otherwise the per-language scanner runs (all three
scanners are total, so the `except` branch of the source is unreachable)
and the result carries no error. -/
def scan_code (src : SourceInput) (language : Option Dispatch.Language := none)
    (file_path : String := "<input>") : ScanResult :=
  if resolveLanguage src language file_path = Dispatch.Language.unknown then
    { file_path := file_path
      language := Dispatch.Language.unknown
      findings := []
      error := some "Could not detect programming language" }
  else
    { file_path := file_path
      language := resolveLanguage src language file_path
      findings := runScanner src (resolveLanguage src language file_path) file_path
      error := none }

/-! ## Structural predicates and lemmas about the Python visitor -/

namespace PyScan

mutual
/-- The source tree contains no loop or iteration construct (no `for`,
`while`, comprehension or generator expression node). -/
def noLoops : Py → Bool
  | .functionDef _ children => noLoopsList children
  | .loopNode _ => false
  | .call _ func args keywords =>
      noLoops func && noLoopsList args && noLoopsList keywords
  | .name _ => true
  | .attribute value _ => noLoops value
  | .constStr _ => true
  | .constOther _ => true
  | .joinedStr values => noLoopsList values
  | .node children => noLoopsList children

/-- `noLoops` over a child list. -/
def noLoopsList : PyList → Bool
  | .nil => true
  | .cons h t => noLoops h && noLoopsList t
end

/-- Lift `noLoopsList` through the parse outcome (an unparseable source
trivially has no loops). -/
def noLoopsOpt : Option PyList → Bool
  | none => true
  | some body => noLoopsList body

mutual
/-- No call node of the tree carries a statically extractable first string
argument (every query construction is dynamic). -/
def noStaticQuery : Py → Bool
  | .functionDef _ children => noStaticQueryList children
  | .loopNode children => noStaticQueryList children
  | .call _ func args keywords =>
      (extractQueryString args).isNone && noStaticQuery func &&
        noStaticQueryList args && noStaticQueryList keywords
  | .name _ => true
  | .attribute value _ => noStaticQuery value
  | .constStr _ => true
  | .constOther _ => true
  | .joinedStr values => noStaticQueryList values
  | .node children => noStaticQueryList children

/-- `noStaticQuery` over a child list. -/
def noStaticQueryList : PyList → Bool
  | .nil => true
  | .cons h t => noStaticQuery h && noStaticQueryList t
end

/-- Lift `noStaticQueryList` through the parse outcome. -/
def noStaticQueryOpt : Option PyList → Bool
  | none => true
  | some body => noStaticQueryList body

end PyScan

/-! ## Concrete inputs used by witnesses and counterexamples -/

/-- Category strings having an entry in the cost model's unit-cost table
(the `.value` names of the `UNIT_COSTS` keys). -/
def hasUnitCostEntry (c : String) : Bool :=
  (UNIT_COSTS.map fun p => p.1.value).contains c

/-- AST of `cursor.execute("SELECT * FROM users")` (an expression
statement on line 1). -/
def exUnboundedAst : PyScan.PyList :=
  PyScan.PyList.ofList [PyScan.Py.node (PyScan.PyList.ofList
    [PyScan.Py.call 1 (PyScan.Py.attribute (PyScan.Py.name "cursor") "execute")
      (PyScan.PyList.ofList [PyScan.Py.constStr "SELECT * FROM users"])
      PyScan.PyList.nil])]

/-- The source unit for `exUnboundedAst`. -/
def exUnboundedSrc : PySource :=
  { text := "cursor.execute(\x22SELECT * FROM users\x22)", parse := some exUnboundedAst }

/-- AST of `cursor.execute("SELECT * FROM users LIMIT 100")`. -/
def exBoundedAst : PyScan.PyList :=
  PyScan.PyList.ofList [PyScan.Py.node (PyScan.PyList.ofList
    [PyScan.Py.call 1 (PyScan.Py.attribute (PyScan.Py.name "cursor") "execute")
      (PyScan.PyList.ofList [PyScan.Py.constStr "SELECT * FROM users LIMIT 100"])
      PyScan.PyList.nil])]

/-- The source unit for `exBoundedAst`. -/
def exBoundedSrc : PySource :=
  { text := "cursor.execute(\x22SELECT * FROM users LIMIT 100\x22)", parse := some exBoundedAst }

/-- AST of a loop whose body calls `db.query(q)` with a dynamically built
argument (a name, not a literal), all on line 1. -/
def exDynamicAst : PyScan.PyList :=
  PyScan.PyList.ofList [PyScan.Py.loopNode (PyScan.PyList.ofList
    [PyScan.Py.node (PyScan.PyList.ofList
      [PyScan.Py.call 1 (PyScan.Py.attribute (PyScan.Py.name "db") "query")
        (PyScan.PyList.ofList [PyScan.Py.name "q"]) PyScan.PyList.nil])])]

/-- The source unit for `exDynamicAst`. -/
def exDynamicSrc : PySource :=
  { text := "for x in xs: db.query(q)", parse := some exDynamicAst }

/-- AST of a loop whose body evaluates `db.get(x)` and `db.get(y)` in one
expression on a single line (line 1). -/
def exTwoCallsAst : PyScan.PyList :=
  PyScan.PyList.ofList [PyScan.Py.loopNode (PyScan.PyList.ofList
    [PyScan.Py.node (PyScan.PyList.ofList
      [PyScan.Py.call 1 (PyScan.Py.attribute (PyScan.Py.name "db") "get")
        (PyScan.PyList.ofList [PyScan.Py.name "x"]) PyScan.PyList.nil,
       PyScan.Py.call 1 (PyScan.Py.attribute (PyScan.Py.name "db") "get")
        (PyScan.PyList.ofList [PyScan.Py.name "y"]) PyScan.PyList.nil])])]

/-- The source unit for `exTwoCallsAst`. -/
def exTwoCallsSrc : PySource :=
  { text := "for i in x: db.get(x) or db.get(y)", parse := some exTwoCallsAst }

/-- An unparseable Python source (`ast.parse` raises `SyntaxError`). -/
def exBadPySrc : SourceInput :=
  { text := "def (", pyParse := none }

/-- A source whose content matches no indicator keyword of any language. -/
def exNoIndicatorSrc : SourceInput :=
  { text := "zzz qqq 123" }

/-- JavaScript view: a loop followed by a `JSON.parse` line whose backward
window contains a hot-path signal (`hotCtx` is the `_is_hot_path` oracle). -/
def exJsHot : List JsScan.JsLine :=
  [{ content := "for (const s of strings) \x7b", loopStart := true, hotCtx := true },
   { content := "  const o = JSON.parse(s);", loopStart := false,
     serialHits := [true], hotCtx := true }]

/-- JavaScript view of a loop-free source whose single line textually
matches the first API-call pattern (`fetch`). -/
def exJsNoLoop : List JsScan.JsLine :=
  [{ content := "const r = fetch(url);", loopStart := false, apiHits := [true] }]

/-- Java view of a loop-free source whose single line matches the first
Spring Data pattern. -/
def exJavaNoLoop : List JavaScan.JavaLine :=
  [{ content := "User u = repository.findById(id);", loopStart := false,
     springHits := [true] }]

/-- Java view: a loop line followed by an `objectMapper.writeValueAsString`
line inside it, with a hot backward window. -/
def exJavaHot : List JavaScan.JavaLine :=
  [{ content := "for (Object o : objects) \x7b", loopStart := true, hotCtx := true },
   { content := "  String j = objectMapper.writeValueAsString(o);", loopStart := false,
     mapperHits := [true], hotCtx := true }]

/-- The single finding produced by scanning `exUnboundedSrc`. -/
def exUnboundedFinding : Finding :=
  { file_path := "<input>"
    line_number := 1
    line_content := "cursor.execute(\x22SELECT * FROM users\x22)"
    rule_id := "PY004"
    rule_name := "Unbounded Query"
    description := "SQL query without LIMIT or pagination. May return excessive data and incur high costs."
    severity := "medium"
    category := "database_read"
    suggestion := "Add LIMIT or implement pagination to prevent full table scans."
    estimated_cost := some (CostEstimator.estimate CostCategory.database_read none) }

/-- The single finding produced by scanning `exDynamicSrc` (the in-loop
database finding; its dynamic query yields no `PY004`). -/
def exDynamicFinding : Finding :=
  { file_path := "<input>"
    line_number := 1
    line_content := "for x in xs: db.query(q)"
    rule_id := "PY001"
    rule_name := "Database Call in Loop"
    description := "DynamoDB query called inside a loop. Each iteration triggers a database operation."
    severity := "high"
    category := "database_read"
    suggestion := "Use JOIN or IN query to batch database operations, or use batch APIs like batch_get_item."
    estimated_cost := some (CostEstimator.estimate CostCategory.database_read none) }

/-- The matching rule exactly as the specification words it: the method
patterns contain one another in one direction or the other, and the
receiver pattern is empty or contains / is contained in the receiver
(`<:+:` is contiguous-sublist containment, i.e. substring on the character
sequences).  Stated independently of the implementation for comparison with
`PyScan.matchesPattern`. -/
def specRuleMatches (receiver method receiver_pattern method_pattern : String) : Prop :=
  (method_pattern.toList <:+: method.toList ∨ method.toList <:+: method_pattern.toList) ∧
  (receiver_pattern = "" ∨ receiver_pattern.toList <:+: receiver.toList ∨
    receiver.toList <:+: receiver_pattern.toList)

namespace PyScan

/-- Every finding emitted by the unbounded-query check carries rule `PY004`
and category `database_read`. -/
theorem checkUnbounded_mem {sl : List String} {st : VState} {ln : Nat}
    {o m : String} {args : PyList} {f : PythonFinding}
    (h : f ∈ checkUnboundedQuery sl st ln o m args) :
    f.rule_id = "PY004" ∧ f.category = "database_read" := by
  unfold checkUnboundedQuery at h
  rcases h1 : findFirst UNBOUNDED_QUERY_PATTERNS o m with _ | desc
  · rw [h1] at h; simp at h
  · rw [h1] at h
    rcases h2 : extractQueryString args with _ | q
    · rw [h2] at h; simp at h
    · rw [h2] at h
      by_cases h3 : hasPagination q
      · simp [h3] at h
      · simp [h3] at h
        subst h
        exact ⟨rfl, rfl⟩

/-- With no extractable query string, the unbounded-query check emits
nothing. -/
theorem checkUnbounded_dynamic {sl : List String} {st : VState} {ln : Nat}
    {o m : String} {args : PyList} (h : extractQueryString args = none) :
    checkUnboundedQuery sl st ln o m args = [] := by
  unfold checkUnboundedQuery
  rcases h1 : findFirst UNBOUNDED_QUERY_PATTERNS o m with _ | desc
  · rfl
  · rw [h]

/-- Every finding emitted by the three loop-dependent checks carries one of
the rules `PY001`/`PY002`/`PY003` with its fixed category. -/
theorem callLoopChecks_mem {sl : List String} {st : VState} {ln : Nat}
    {o m : String} {f : PythonFinding}
    (h : f ∈ callLoopChecks sl st ln o m) :
    (f.rule_id = "PY001" ∧ f.category = "database_read") ∨
    (f.rule_id = "PY002" ∧ f.category = "api_call") ∨
    (f.rule_id = "PY003" ∧ f.category = "serialization") := by
  unfold callLoopChecks at h
  rcases List.mem_append.mp h with h12 | h3
  · rcases List.mem_append.mp h12 with h1 | h2
    · rcases hx : findFirst DB_PATTERNS o m with _ | d
      · rw [hx] at h1; simp at h1
      · rw [hx] at h1; simp at h1; subst h1; exact Or.inl ⟨rfl, rfl⟩
    · rcases hx : findFirst API_PATTERNS o m with _ | d
      · rw [hx] at h2; simp at h2
      · rw [hx] at h2; simp at h2; subst h2; exact Or.inr (Or.inl ⟨rfl, rfl⟩)
  · rcases hx : findFirst SERIALIZATION_PATTERNS o m with _ | d
    · rw [hx] at h3; simp at h3
    · rw [hx] at h3; simp at h3; subst h3; exact Or.inr (Or.inr ⟨rfl, rfl⟩)

mutual
/-- In a loop-free tree visited with an empty loop stack, every finding is
an unbounded-query finding. -/
theorem visit_noLoops : ∀ (sl : List String) (st : VState) (e : Py),
    noLoops e = true → st.loopDepth = 0 →
    ∀ f ∈ visit sl st e, f.rule_id = "PY004"
  | sl, st, .functionDef nm children, hnl, hd => by
      rw [noLoops] at hnl
      rw [visit]
      exact visitList_noLoops sl _ children hnl hd
  | sl, st, .loopNode children, hnl, hd => by
      rw [noLoops] at hnl; exact absurd hnl (by simp)
  | sl, st, .call ln func args keywords, hnl, hd => by
      rw [noLoops] at hnl
      simp only [Bool.and_eq_true] at hnl
      intro f hf
      rw [visit] at hf
      rcases List.mem_append.mp hf with h1 | h2
      · rcases hx : extractCallPattern func with _ | ⟨o, mth⟩
        · rw [hx] at h1; simp at h1
        · rw [hx] at h1
          rcases List.mem_append.mp h1 with hu | hl
          · exact (checkUnbounded_mem hu).1
          · rw [if_pos hd] at hl; simp at hl
      · rcases List.mem_append.mp h2 with h3 | h4
        · exact visit_noLoops sl st func hnl.1.1 hd f h3
        · rcases List.mem_append.mp h4 with h5 | h6
          · exact visitList_noLoops sl st args hnl.1.2 hd f h5
          · exact visitList_noLoops sl st keywords hnl.2 hd f h6
  | sl, st, .name id, hnl, hd => by simp [visit]
  | sl, st, .attribute value a, hnl, hd => by
      rw [noLoops] at hnl
      rw [visit]
      exact visit_noLoops sl st value hnl hd
  | sl, st, .constStr s, hnl, hd => by simp [visit]
  | sl, st, .constOther r, hnl, hd => by simp [visit]
  | sl, st, .joinedStr values, hnl, hd => by
      rw [noLoops] at hnl
      rw [visit]
      exact visitList_noLoops sl st values hnl hd
  | sl, st, .node children, hnl, hd => by
      rw [noLoops] at hnl
      rw [visit]
      exact visitList_noLoops sl st children hnl hd

/-- List version of `visit_noLoops`. -/
theorem visitList_noLoops : ∀ (sl : List String) (st : VState) (l : PyList),
    noLoopsList l = true → st.loopDepth = 0 →
    ∀ f ∈ visitList sl st l, f.rule_id = "PY004"
  | sl, st, .nil, hnl, hd => by simp [visitList]
  | sl, st, .cons h t, hnl, hd => by
      rw [noLoopsList] at hnl
      simp only [Bool.and_eq_true] at hnl
      intro f hf
      rw [visitList] at hf
      rcases List.mem_append.mp hf with h1 | h2
      · exact visit_noLoops sl st h hnl.1 hd f h1
      · exact visitList_noLoops sl st t hnl.2 hd f h2
end

mutual
/-- In a tree with only dynamically constructed query arguments, no
unbounded-query finding is emitted. -/
theorem visit_noStaticQuery : ∀ (sl : List String) (st : VState) (e : Py),
    noStaticQuery e = true →
    ∀ f ∈ visit sl st e, f.rule_id ≠ "PY004"
  | sl, st, .functionDef nm children, hq => by
      rw [noStaticQuery] at hq
      rw [visit]
      exact visitList_noStaticQuery sl _ children hq
  | sl, st, .loopNode children, hq => by
      rw [noStaticQuery] at hq
      rw [visit]
      exact visitList_noStaticQuery sl _ children hq
  | sl, st, .call ln func args keywords, hq => by
      rw [noStaticQuery] at hq
      simp only [Bool.and_eq_true, Option.isNone_iff_eq_none] at hq
      intro f hf
      rw [visit] at hf
      rcases List.mem_append.mp hf with h1 | h2
      · rcases hx : extractCallPattern func with _ | ⟨o, mth⟩
        · rw [hx] at h1; simp at h1
        · rw [hx] at h1
          rcases List.mem_append.mp h1 with hu | hl
          · rw [checkUnbounded_dynamic hq.1.1.1] at hu; simp at hu
          · by_cases hz : st.loopDepth = 0
            · rw [if_pos hz] at hl; simp at hl
            · rw [if_neg hz] at hl
              rcases callLoopChecks_mem hl with ⟨h, _⟩ | ⟨h, _⟩ | ⟨h, _⟩ <;>
                · rw [h]; decide
      · rcases List.mem_append.mp h2 with h3 | h4
        · exact visit_noStaticQuery sl st func hq.1.1.2 f h3
        · rcases List.mem_append.mp h4 with h5 | h6
          · exact visitList_noStaticQuery sl st args hq.1.2 f h5
          · exact visitList_noStaticQuery sl st keywords hq.2 f h6
  | sl, st, .name id, hq => by simp [visit]
  | sl, st, .attribute value a, hq => by
      rw [noStaticQuery] at hq
      rw [visit]
      exact visit_noStaticQuery sl st value hq
  | sl, st, .constStr s, hq => by simp [visit]
  | sl, st, .constOther r, hq => by simp [visit]
  | sl, st, .joinedStr values, hq => by
      rw [noStaticQuery] at hq
      rw [visit]
      exact visitList_noStaticQuery sl st values hq
  | sl, st, .node children, hq => by
      rw [noStaticQuery] at hq
      rw [visit]
      exact visitList_noStaticQuery sl st children hq

/-- List version of `visit_noStaticQuery`. -/
theorem visitList_noStaticQuery : ∀ (sl : List String) (st : VState) (l : PyList),
    noStaticQueryList l = true →
    ∀ f ∈ visitList sl st l, f.rule_id ≠ "PY004"
  | sl, st, .nil, hq => by simp [visitList]
  | sl, st, .cons h t, hq => by
      rw [noStaticQueryList] at hq
      simp only [Bool.and_eq_true] at hq
      intro f hf
      rw [visitList] at hf
      rcases List.mem_append.mp hf with h1 | h2
      · exact visit_noStaticQuery sl st h hq.1 f h1
      · exact visitList_noStaticQuery sl st t hq.2 f h2
end

mutual
/-- Every finding the visitor emits carries one of the three categories the
Python scanner can produce. -/
theorem visit_category : ∀ (sl : List String) (st : VState) (e : Py),
    ∀ f ∈ visit sl st e,
      f.category = "database_read" ∨ f.category = "api_call" ∨
      f.category = "serialization"
  | sl, st, .functionDef nm children => by
      rw [visit]; exact visitList_category sl _ children
  | sl, st, .loopNode children => by
      rw [visit]; exact visitList_category sl _ children
  | sl, st, .call ln func args keywords => by
      intro f hf
      rw [visit] at hf
      rcases List.mem_append.mp hf with h1 | h2
      · rcases hx : extractCallPattern func with _ | ⟨o, mth⟩
        · rw [hx] at h1; simp at h1
        · rw [hx] at h1
          rcases List.mem_append.mp h1 with hu | hl
          · exact Or.inl (checkUnbounded_mem hu).2
          · by_cases hz : st.loopDepth = 0
            · rw [if_pos hz] at hl; simp at hl
            · rw [if_neg hz] at hl
              rcases callLoopChecks_mem hl with ⟨_, h⟩ | ⟨_, h⟩ | ⟨_, h⟩
              · exact Or.inl h
              · exact Or.inr (Or.inl h)
              · exact Or.inr (Or.inr h)
      · rcases List.mem_append.mp h2 with h3 | h4
        · exact visit_category sl st func f h3
        · rcases List.mem_append.mp h4 with h5 | h6
          · exact visitList_category sl st args f h5
          · exact visitList_category sl st keywords f h6
  | sl, st, .name id => by simp [visit]
  | sl, st, .attribute value a => by
      rw [visit]; exact visit_category sl st value
  | sl, st, .constStr s => by simp [visit]
  | sl, st, .constOther r => by simp [visit]
  | sl, st, .joinedStr values => by
      rw [visit]; exact visitList_category sl st values
  | sl, st, .node children => by
      rw [visit]; exact visitList_category sl st children

/-- List version of `visit_category`. -/
theorem visitList_category : ∀ (sl : List String) (st : VState) (l : PyList),
    ∀ f ∈ visitList sl st l,
      f.category = "database_read" ∨ f.category = "api_call" ∨
      f.category = "serialization"
  | sl, st, .nil => by simp [visitList]
  | sl, st, .cons h t => by
      intro f hf
      rw [visitList] at hf
      rcases List.mem_append.mp hf with h1 | h2
      · exact visit_category sl st h f h1
      · exact visitList_category sl st t f h2
end

end PyScan

/-! ## Lemmas about the lexical scanners -/

namespace JsScan

/-- With an empty brace stack and zero loop depth, the close-brace loop is
a no-op. -/
theorem popBraces_zero (n : Nat) : popBraces n (0, []) = (0, []) := by
  induction n with
  | zero => rfl
  | succ k ih => rw [popBraces]; simpa using ih

/-- If no line starts a loop, the first pass marks every line as outside
any loop. -/
theorem markLines_noLoop : ∀ (lines : List JsLine),
    (∀ l ∈ lines, l.loopStart = false) →
    markLines 0 [] lines = lines.map (fun l => (l, false))
  | [], _ => rfl
  | l :: rest, h => by
      have hl : l.loopStart = false := h l (by simp)
      rw [markLines]
      simp only [hl, if_neg (by simp : ¬ (false = true))]
      rw [popBraces_zero]
      rw [markLines_noLoop rest fun x hx => h x (by simp [hx])]
      simp

/-- A line marked as outside every loop contributes no finding. -/
theorem lineFindings_skip (i : Nat) (l : JsLine) : lineFindings i l false = [] := by
  simp [lineFindings]

/-- The second pass over lines all marked out-of-loop is empty. -/
theorem secondPass_skip : ∀ (i : Nat) (ls : List JsLine),
    secondPass i (ls.map (fun l => (l, false))) = []
  | _, [] => rfl
  | i, l :: rest => by
      rw [List.map_cons, secondPass, lineFindings_skip]
      simpa using secondPass_skip (i + 1) rest

/-- Every raw JavaScript finding carries one of the three categories the
scanner can produce. -/
theorem lineFindings_category (i : Nat) (l : JsLine) (b : Bool) :
    ∀ f ∈ lineFindings i l b,
      f.category = "database_read" ∨ f.category = "api_call" ∨
      f.category = "serialization" := by
  intro f hf
  cases b with
  | false => rw [lineFindings_skip] at hf; simp at hf
  | true =>
      rw [lineFindings] at hf
      rw [if_neg (by simp)] at hf
      simp only [List.mem_append] at hf
      rcases hf with ((h1 | h2) | h3) | h4
      · rcases hx : firstHit API_CALL_PATTERNS l.apiHits with _ | d
        · rw [hx] at h1; simp at h1
        · rw [hx] at h1; simp at h1; subst h1; exact Or.inr (Or.inl rfl)
      · rcases hx : firstHit DB_PATTERNS l.dbHits with _ | d
        · rw [hx] at h2; simp at h2
        · rw [hx] at h2; simp at h2; subst h2; exact Or.inl rfl
      · rcases hx : promiseHitDesc PROMISE_PATTERNS l.promiseHits with _ | d
        · rw [hx] at h3; simp at h3
        · rw [hx] at h3; simp at h3; subst h3; exact Or.inr (Or.inl rfl)
      · rcases hx : firstHit SERIALIZATION_PATTERNS l.serialHits with _ | d
        · rw [hx] at h4; simp at h4
        · rw [hx] at h4; simp at h4; subst h4; exact Or.inr (Or.inr rfl)

/-- Category of every raw finding of the whole second pass. -/
theorem secondPass_category : ∀ (i : Nat) (ms : List (JsLine × Bool)),
    ∀ f ∈ secondPass i ms,
      f.category = "database_read" ∨ f.category = "api_call" ∨
      f.category = "serialization"
  | _, [] => by simp [secondPass]
  | i, (l, b) :: rest => by
      intro f hf
      rw [secondPass] at hf
      rcases List.mem_append.mp hf with h1 | h2
      · exact lineFindings_category i l b f h1
      · exact secondPass_category (i + 1) rest f h2

end JsScan

namespace JavaScan

/-- Processing a character preserves an empty floor stack and zero loop
depth (only the brace depth can change). -/
theorem charStep_nil (bd : Int) (c : Char) :
    ∃ bd2, charStep (bd, [], 0) c = (bd2, [], 0) := by
  unfold charStep
  by_cases h1 : c = Char.ofNat 123
  · exact ⟨bd + 1, by simp [h1]⟩
  · by_cases h2 : c = Char.ofNat 125
    · exact ⟨bd - 1, by simp [h1, h2, popFloors]⟩
    · exact ⟨bd, by simp [h1, h2]⟩

/-- Folding `charStep` from an empty floor stack and zero loop depth stays
there. -/
theorem foldl_charStep_nil : ∀ (cs : List Char) (bd : Int),
    ∃ bd2, cs.foldl charStep (bd, [], 0) = (bd2, [], 0)
  | [], bd => ⟨bd, rfl⟩
  | c :: cs, bd => by
      rw [List.foldl_cons]
      obtain ⟨b, hb⟩ := charStep_nil bd c
      rw [hb]
      exact foldl_charStep_nil cs b

/-- If no line starts a loop, `_find_loops` marks every line as outside
any loop. -/
theorem javaMarkLines_noLoop : ∀ (lines : List JavaLine) (bd : Int),
    (∀ l ∈ lines, l.loopStart = false) →
    markLines bd [] 0 lines = lines.map (fun l => (l, false))
  | [], _, _ => rfl
  | l :: rest, bd, h => by
      have hl : l.loopStart = false := h l (by simp)
      rw [markLines]
      simp only [hl, if_neg (by simp : ¬ (false = true))]
      obtain ⟨b2, hb2⟩ := foldl_charStep_nil l.content.toList bd
      rw [hb2]
      rw [javaMarkLines_noLoop rest b2 fun x hx => h x (by simp [hx])]
      simp

/-- A line marked as outside every loop contributes no finding. -/
theorem javaLineFindings_skip (i : Nat) (l : JavaLine) : lineFindings i l false = [] := by
  simp [lineFindings]

/-- The second pass over lines all marked out-of-loop is empty. -/
theorem javaSecondPass_skip : ∀ (i : Nat) (ls : List JavaLine),
    secondPass i (ls.map (fun l => (l, false))) = []
  | _, [] => rfl
  | i, l :: rest => by
      rw [List.map_cons, secondPass, javaLineFindings_skip]
      simpa using javaSecondPass_skip (i + 1) rest

/-- Every raw Java finding carries one of the three categories the scanner
can produce. -/
theorem javaLineFindings_category (i : Nat) (l : JavaLine) (b : Bool) :
    ∀ f ∈ lineFindings i l b,
      f.category = "database_read" ∨ f.category = "api_call" ∨
      f.category = "serialization" := by
  intro f hf
  cases b with
  | false => rw [javaLineFindings_skip] at hf; simp at hf
  | true =>
      rw [lineFindings] at hf
      rw [if_neg (by simp)] at hf
      simp only [List.mem_append] at hf
      rcases hf with (((h1 | h2) | h3) | h4) | h5
      · rcases hx : JsScan.firstHit SPRING_DATA_PATTERNS l.springHits with _ | d
        · rw [hx] at h1; simp at h1
        · rw [hx] at h1; simp at h1; subst h1; exact Or.inl rfl
      · rcases hx : JsScan.firstHit REST_TEMPLATE_PATTERNS l.restHits with _ | d
        · rw [hx] at h2; simp at h2
        · rw [hx] at h2; simp at h2; subst h2; exact Or.inr (Or.inl rfl)
      · rcases hx : JsScan.firstHit OBJECT_MAPPER_PATTERNS l.mapperHits with _ | d
        · rw [hx] at h3; simp at h3
        · rw [hx] at h3; simp at h3; subst h3; exact Or.inr (Or.inr rfl)
      · rcases hx : jdbcHitDesc JDBC_PATTERNS l.jdbcHits with _ | d
        · rw [hx] at h4; simp at h4
        · rw [hx] at h4; simp at h4; subst h4; exact Or.inl rfl
      · rcases hx : JsScan.firstHit AWS_PATTERNS l.awsHits with _ | d
        · rw [hx] at h5; simp at h5
        · rw [hx] at h5; simp at h5; subst h5
          by_cases hdy : pyIn "DynamoDB" d = true
          · simp only [hdy]; exact Or.inl (by simp)
          · simp only [hdy]; exact Or.inr (Or.inl (by simp [hdy]))

/-- Category of every raw finding of the whole second pass. -/
theorem javaSecondPass_category : ∀ (i : Nat) (ms : List (JavaLine × Bool)),
    ∀ f ∈ secondPass i ms,
      f.category = "database_read" ∨ f.category = "api_call" ∨
      f.category = "serialization"
  | _, [] => by simp [secondPass]
  | i, (l, b) :: rest => by
      intro f hf
      rw [secondPass] at hf
      rcases List.mem_append.mp hf with h1 | h2
      · exact javaLineFindings_category i l b f h1
      · exact javaSecondPass_category (i + 1) rest f h2

end JavaScan

/-! ## General helper lemmas -/

/-- `charsIn` decides contiguous-sublist containment. -/
theorem charsIn_iff (a : List Char) : ∀ l, charsIn a l = true ↔ a <:+: l
  | [] => by simp [charsIn]
  | c :: cs => by
      rw [charsIn]
      simp [List.infix_cons_iff, charsIn_iff a cs]

/-- `pyIn` decides substring containment on the character sequences. -/
theorem pyIn_iff (a b : String) : pyIn a b = true ↔ a.toList <:+: b.toList :=
  charsIn_iff a.toList b.toList

/-- Spec-side reading of `_calculate_severity`. -/
theorem calculateSeverity_spec (m : ℚ) :
    (m > 100 → calculateSeverity m = "high") ∧
    (m ≤ 100 → m > 10 → calculateSeverity m = "medium") ∧
    (m ≤ 10 → calculateSeverity m = "low") := by
  unfold calculateSeverity
  refine ⟨fun h => if_pos h, fun h1 h2 => ?_, fun h => ?_⟩
  · rw [if_neg (by linarith), if_pos h2]
  · rw [if_neg (by linarith), if_neg (by linarith)]

/-- Unit cost of a data read (₹0.002). -/
theorem unitCostOf_db : unitCostOf CostCategory.database_read = (0.002 : ℚ) := rfl

/-- Unit cost of a data write (₹0.004). -/
theorem unitCostOf_dbw : unitCostOf CostCategory.database_write = (0.004 : ℚ) := rfl

/-- Unit cost of an API call (₹0.01). -/
theorem unitCostOf_api : unitCostOf CostCategory.api_call = (0.01 : ℚ) := rfl

/-- Unit cost of a serialization (₹0.0001). -/
theorem unitCostOf_ser : unitCostOf CostCategory.serialization = (0.0001 : ℚ) := rfl

/-- Default estimate for a data read is severity "low" (₹6/month). -/
theorem estimate_db_default_severity :
    (CostEstimator.estimate CostCategory.database_read none).severity = "low" := by
  show calculateSeverity
    (unitCostOf CostCategory.database_read * ((DEFAULT_LOOP_ITERATIONS : Int) : ℚ) * 30) = "low"
  norm_num [calculateSeverity, unitCostOf_db, DEFAULT_LOOP_ITERATIONS]

/-- Default estimate for an API call is severity "medium" (₹30/month). -/
theorem estimate_api_default_severity :
    (CostEstimator.estimate CostCategory.api_call none).severity = "medium" := by
  show calculateSeverity
    (unitCostOf CostCategory.api_call * ((DEFAULT_LOOP_ITERATIONS : Int) : ℚ) * 30) = "medium"
  norm_num [calculateSeverity, unitCostOf_api, DEFAULT_LOOP_ITERATIONS]

/-- Default estimate for a serialization is severity "low" (₹0.3/month). -/
theorem estimate_ser_default_severity :
    (CostEstimator.estimate CostCategory.serialization none).severity = "low" := by
  show calculateSeverity
    (unitCostOf CostCategory.serialization * ((DEFAULT_LOOP_ITERATIONS : Int) : ℚ) * 30) = "low"
  norm_num [calculateSeverity, unitCostOf_ser, DEFAULT_LOOP_ITERATIONS]

/-- Converting a `database_read` finding attaches the default data-read
estimate and (its severity being "low") keeps the visitor severity. -/
theorem convertFinding_db (fp : String) (pf : PyScan.PythonFinding)
    (h : pf.category = "database_read") :
    PyScan.convertFinding fp pf =
      { file_path := fp, line_number := pf.line_number, line_content := pf.line_content,
        rule_id := pf.rule_id, rule_name := pf.rule_name, description := pf.description,
        severity := pf.severity, category := pf.category, suggestion := pf.suggestion,
        estimated_cost := some (CostEstimator.estimate CostCategory.database_read none) } := by
  simp [PyScan.convertFinding, PyScan.cost_category_map, h, estimate_db_default_severity,
    List.lookup]

/-- Scanning `cursor.execute("SELECT * FROM users")` yields exactly the one
unbounded-query finding. -/
theorem pythonScan_exUnbounded :
    pythonScan exUnboundedSrc "<input>" = [exUnboundedFinding] := by
  have hrv : PyScan.runVisitor (splitLines exUnboundedSrc.text) exUnboundedAst =
      [{ line_number := 1,
         line_content := "cursor.execute(\x22SELECT * FROM users\x22)",
         rule_id := "PY004", rule_name := "Unbounded Query",
         description := "SQL query without LIMIT or pagination. May return excessive data and incur high costs.",
         severity := "medium", category := "database_read",
         suggestion := "Add LIMIT or implement pagination to prevent full table scans." }] := by
    decide
  show (PyScan.runVisitor (splitLines exUnboundedSrc.text) exUnboundedAst).map
      (PyScan.convertFinding "<input>") = [exUnboundedFinding]
  rw [hrv, List.map_cons, List.map_nil, convertFinding_db _ _ rfl]
  rfl

/-- Scanning the loop with the dynamically built `db.query(q)` yields
exactly the one in-loop database finding. -/
theorem pythonScan_exDynamic :
    pythonScan exDynamicSrc "<input>" = [exDynamicFinding] := by
  have hrv : PyScan.runVisitor (splitLines exDynamicSrc.text) exDynamicAst =
      [{ line_number := 1,
         line_content := "for x in xs: db.query(q)",
         rule_id := "PY001", rule_name := "Database Call in Loop",
         description := "DynamoDB query called inside a loop. Each iteration triggers a database operation.",
         severity := "high", category := "database_read",
         suggestion := "Use JOIN or IN query to batch database operations, or use batch APIs like batch_get_item." }] := by
    decide
  show (PyScan.runVisitor (splitLines exDynamicSrc.text) exDynamicAst).map
      (PyScan.convertFinding "<input>") = [exDynamicFinding]
  rw [hrv, List.map_cons, List.map_nil, convertFinding_db _ _ rfl]
  rfl

/-- Conversion attaches a cost estimate to every Python finding whose
category is one the scanner produces, and that category has a unit-cost
entry. -/
theorem pyConvert_cost (fp : String) (pf : PyScan.PythonFinding)
    (h : pf.category = "database_read" ∨ pf.category = "api_call" ∨
      pf.category = "serialization") :
    (PyScan.convertFinding fp pf).estimated_cost.isSome = true ∧
    hasUnitCostEntry (PyScan.convertFinding fp pf).category = true := by
  rcases h with h | h | h <;>
    simp [PyScan.convertFinding, PyScan.cost_category_map, h, hasUnitCostEntry,
      UNIT_COSTS, CostCategory.value, List.lookup]

/-- Same for the JavaScript conversion. -/
theorem jsConvert_cost (fp : String) (jf : JsScan.JSFinding)
    (h : jf.category = "database_read" ∨ jf.category = "api_call" ∨
      jf.category = "serialization") :
    (JsScan.convertFinding fp jf).estimated_cost.isSome = true ∧
    hasUnitCostEntry (JsScan.convertFinding fp jf).category = true := by
  rcases h with h | h | h <;>
    simp [JsScan.convertFinding, JsScan.cost_category_map, h, hasUnitCostEntry,
      UNIT_COSTS, CostCategory.value, List.lookup]

/-- Same for the Java conversion. -/
theorem javaConvert_cost (fp : String) (jf : JavaScan.JavaFinding)
    (h : jf.category = "database_read" ∨ jf.category = "api_call" ∨
      jf.category = "serialization") :
    (JavaScan.convertFinding fp jf).estimated_cost.isSome = true ∧
    hasUnitCostEntry (JavaScan.convertFinding fp jf).category = true := by
  rcases h with h | h | h <;>
    simp [JavaScan.convertFinding, JavaScan.cost_category_map, h, hasUnitCostEntry,
      UNIT_COSTS, CostCategory.value, List.lookup]

/-- The pattern-table loop returns the description of the first matching
entry, in the sense of `List.find?`. -/
theorem findFirst_eq_find : ∀ (pats : List ((String × String) × String)) (o m : String),
    PyScan.findFirst pats o m =
      ((pats.find? fun e => PyScan.matchesPattern o m e.1.1 e.1.2).map fun e => e.2)
  | [], o, m => rfl
  | ((op, mp), d) :: rest, o, m => by
      rw [PyScan.findFirst, List.find?]
      by_cases h : PyScan.matchesPattern o m op mp = true
      · simp [h]
      · simp only [Bool.not_eq_true] at h
        simp [h, findFirst_eq_find rest o m]

/-- The hit-list loop of the lexical scanners returns the description of
the first matched entry, in the sense of `List.find?` over the zipped
table. -/
theorem firstHit_eq_find : ∀ (pats : List (String × String)) (hits : List Bool),
    JsScan.firstHit pats hits =
      (((pats.zip hits).find? fun e => e.2).map fun e => e.1.2)
  | [], _ => rfl
  | _ :: _, [] => rfl
  | (p, d) :: rest, b :: bs => by
      rw [JsScan.firstHit, List.zip_cons_cons, List.find?]
      cases b with
      | true => simp
      | false => simp [firstHit_eq_find rest bs]

/-- Each of the three loop-dependent checks of one Python call site
contributes at most one finding per rule. -/
theorem callLoopChecks_countP (sl : List String) (st : PyScan.VState) (ln : Nat)
    (o m : String) :
    (PyScan.callLoopChecks sl st ln o m).countP (fun f => f.rule_id == "PY001") ≤ 1 ∧
    (PyScan.callLoopChecks sl st ln o m).countP (fun f => f.rule_id == "PY002") ≤ 1 ∧
    (PyScan.callLoopChecks sl st ln o m).countP (fun f => f.rule_id == "PY003") ≤ 1 := by
  unfold PyScan.callLoopChecks
  rcases h1 : PyScan.findFirst PyScan.DB_PATTERNS o m with _ | d1 <;>
  rcases h2 : PyScan.findFirst PyScan.API_PATTERNS o m with _ | d2 <;>
  rcases h3 : PyScan.findFirst PyScan.SERIALIZATION_PATTERNS o m with _ | d3 <;>
    refine ⟨?_, ?_, ?_⟩ <;>
      simp [List.countP_append, List.countP_cons, List.countP_nil, PyScan.addFinding]

/-- The unbounded-query check of one call site contributes at most one
finding. -/
theorem checkUnbounded_len (sl : List String) (st : PyScan.VState) (ln : Nat)
    (o m : String) (args : PyScan.PyList) :
    (PyScan.checkUnboundedQuery sl st ln o m args).length ≤ 1 := by
  unfold PyScan.checkUnboundedQuery
  rcases h1 : PyScan.findFirst PyScan.UNBOUNDED_QUERY_PATTERNS o m with _ | d
  · simp
  · rcases h2 : PyScan.extractQueryString args with _ | q
    · simp
    · by_cases h3 : PyScan.hasPagination q <;> simp [h3]

/-- One JavaScript line contributes at most one finding per rule. -/
theorem jsLineFindings_countP (i : Nat) (l : JsScan.JsLine) (b : Bool) :
    (JsScan.lineFindings i l b).countP (fun f => f.rule_id == "JS001") ≤ 1 ∧
    (JsScan.lineFindings i l b).countP (fun f => f.rule_id == "JS002") ≤ 1 ∧
    (JsScan.lineFindings i l b).countP (fun f => f.rule_id == "JS003") ≤ 1 ∧
    (JsScan.lineFindings i l b).countP (fun f => f.rule_id == "JS004") ≤ 1 := by
  cases b with
  | false => simp [JsScan.lineFindings_skip]
  | true =>
      unfold JsScan.lineFindings
      rw [if_neg (by simp)]
      rcases h1 : JsScan.firstHit JsScan.API_CALL_PATTERNS l.apiHits with _ | d1 <;>
      rcases h2 : JsScan.firstHit JsScan.DB_PATTERNS l.dbHits with _ | d2 <;>
      rcases h3 : JsScan.promiseHitDesc JsScan.PROMISE_PATTERNS l.promiseHits with _ | d3 <;>
      rcases h4 : JsScan.firstHit JsScan.SERIALIZATION_PATTERNS l.serialHits with _ | d4 <;>
        refine ⟨?_, ?_, ?_, ?_⟩ <;>
          simp [List.countP_append, List.countP_cons, List.countP_nil]

/-- One Java line contributes at most one finding per rule. -/
theorem javaLineFindings_countP (i : Nat) (l : JavaScan.JavaLine) (b : Bool) :
    (JavaScan.lineFindings i l b).countP (fun f => f.rule_id == "JAVA001") ≤ 1 ∧
    (JavaScan.lineFindings i l b).countP (fun f => f.rule_id == "JAVA002") ≤ 1 ∧
    (JavaScan.lineFindings i l b).countP (fun f => f.rule_id == "JAVA003") ≤ 1 ∧
    (JavaScan.lineFindings i l b).countP (fun f => f.rule_id == "JAVA004") ≤ 1 ∧
    (JavaScan.lineFindings i l b).countP (fun f => f.rule_id == "JAVA005") ≤ 1 := by
  cases b with
  | false => simp [JavaScan.javaLineFindings_skip]
  | true =>
      unfold JavaScan.lineFindings
      rw [if_neg (by simp)]
      rcases h1 : JsScan.firstHit JavaScan.SPRING_DATA_PATTERNS l.springHits with _ | d1 <;>
      rcases h2 : JsScan.firstHit JavaScan.REST_TEMPLATE_PATTERNS l.restHits with _ | d2 <;>
      rcases h3 : JsScan.firstHit JavaScan.OBJECT_MAPPER_PATTERNS l.mapperHits with _ | d3 <;>
      rcases h4 : JavaScan.jdbcHitDesc JavaScan.JDBC_PATTERNS l.jdbcHits with _ | d4 <;>
      rcases h5 : JsScan.firstHit JavaScan.AWS_PATTERNS l.awsHits with _ | d5 <;>
        refine ⟨?_, ?_, ?_, ?_, ?_⟩ <;>
          simp [List.countP_append, List.countP_cons, List.countP_nil]

/-! ## Claim theorems -/

/-- C1: for every source text containing zero loop or iteration
constructs, scanning produces no loop-dependent finding (the in-loop
data-access, outbound-call and serialization-in-loop rules), regardless of
which call patterns are textually present — for each of the three
scanners. -/
theorem no_loops_no_loop_findings :
    (∀ (src : PySource) (fp : String),
        PyScan.noLoopsOpt src.parse = true →
        ∀ f ∈ pythonScan src fp,
          f.rule_id ≠ "PY001" ∧ f.rule_id ≠ "PY002" ∧ f.rule_id ≠ "PY003") ∧
    (∀ (lines : List JsScan.JsLine) (fp : String),
        (∀ l ∈ lines, l.loopStart = false) → jsScan lines fp = []) ∧
    (∀ (lines : List JavaScan.JavaLine) (fp : String),
        (∀ l ∈ lines, l.loopStart = false) → javaScan lines fp = []) := by
  refine ⟨?_, ?_, ?_⟩
  · intro src fp h f hf
    unfold pythonScan at hf
    rcases hp : src.parse with _ | body
    · rw [hp] at hf; simp at hf
    · rw [hp] at hf
      obtain ⟨pf, hpf, rfl⟩ := List.mem_map.mp hf
      rw [hp] at h
      have h4 : pf.rule_id = "PY004" :=
        PyScan.visitList_noLoops (splitLines src.text) _ body h rfl pf hpf
      have hr : (PyScan.convertFinding fp pf).rule_id = pf.rule_id := rfl
      rw [hr, h4]
      exact ⟨by decide, by decide, by decide⟩
  · intro lines fp h
    unfold jsScan JsScan.scanInternal
    rw [JsScan.markLines_noLoop lines h, JsScan.secondPass_skip]
    rfl
  · intro lines fp h
    unfold javaScan JavaScan.scanInternal
    rw [JavaScan.javaMarkLines_noLoop lines 0 h, JavaScan.javaSecondPass_skip]
    rfl

/-- C1 witness: concrete loop-free sources whose lines do contain call
patterns — the Python scan keeps only its unbounded-query finding, the
JavaScript and Java scans are empty. -/
theorem no_loops_no_loop_findings_witness :
    PyScan.noLoopsOpt exUnboundedSrc.parse = true ∧
    exUnboundedFinding.rule_id ≠ "PY001" ∧
    jsScan exJsNoLoop "<input>" = [] ∧
    javaScan exJavaNoLoop "<input>" = [] := by
  refine ⟨by decide, ?_, ?_, ?_⟩
  · exact (no_loops_no_loop_findings.1 exUnboundedSrc "<input>" (by decide)
      exUnboundedFinding (by rw [pythonScan_exUnbounded]; exact List.mem_singleton_self _)).1
  · exact no_loops_no_loop_findings.2.1 exJsNoLoop "<input>" (by decide)
  · exact no_loops_no_loop_findings.2.2 exJavaNoLoop "<input>" (by decide)

/-- C2 counterexample: with a caller-supplied iteration count of `0` the
estimator does not return `unit_cost × 0` — the falsy `0` silently selects
the default of 100, so `per_execution_cost` is `unit_cost × 100` (= ₹0.2
for a data read), not `0`. -/
theorem cost_estimator_formulas_cex :
    (CostEstimator.estimate CostCategory.database_read (some 0)).per_execution_cost ≠
      unitCostOf CostCategory.database_read * ((0 : Int) : ℚ) ∧
    (CostEstimator.estimate CostCategory.database_read (some 0)).iterations ≠ 0 := by
  constructor
  · show unitCostOf CostCategory.database_read * ((DEFAULT_LOOP_ITERATIONS : Int) : ℚ) ≠ _
    norm_num [unitCostOf_db, DEFAULT_LOOP_ITERATIONS]
  · decide

/-- C2 (amended): for every category and every nonzero caller-supplied
iteration count — 100 is assumed both when the caller supplies none and
when it supplies 0 — the estimator returns `per_execution_cost =
unit_cost[category] × iterations`, `monthly_cost = per_execution_cost × 30`
and a severity of "high" when `monthly_cost > 100`, "medium" when
`monthly_cost > 10`, and "low" otherwise. -/
theorem cost_estimator_formulas (category : CostCategory) (iterations : Option Int)
    (h : iterations ≠ some 0) :
    (CostEstimator.estimate category iterations).iterations = iterations.getD 100 ∧
    (CostEstimator.estimate category iterations).per_execution_cost =
      unitCostOf category * ((iterations.getD 100 : Int) : ℚ) ∧
    (CostEstimator.estimate category iterations).monthly_cost =
      unitCostOf category * ((iterations.getD 100 : Int) : ℚ) * 30 ∧
    ((CostEstimator.estimate category iterations).monthly_cost > 100 →
      (CostEstimator.estimate category iterations).severity = "high") ∧
    ((CostEstimator.estimate category iterations).monthly_cost ≤ 100 →
      (CostEstimator.estimate category iterations).monthly_cost > 10 →
      (CostEstimator.estimate category iterations).severity = "medium") ∧
    ((CostEstimator.estimate category iterations).monthly_cost ≤ 10 →
      (CostEstimator.estimate category iterations).severity = "low") := by
  refine ⟨?_, ?_, ?_, (calculateSeverity_spec _).1,
    fun h1 h2 => (calculateSeverity_spec _).2.1 h1 h2, (calculateSeverity_spec _).2.2⟩
  all_goals cases iterations with
    | none => rfl
    | some n =>
        have hn : ¬ (n = 0) := fun hc => h (by rw [hc])
        simp [CostEstimator.estimate, hn]

/-- C2 witness: an API-call estimate over 1000 iterations costs ₹10 per
execution and ₹300 per month, which is severity "high". -/
theorem cost_estimator_formulas_witness :
    (CostEstimator.estimate CostCategory.api_call (some 1000)).iterations = 1000 ∧
    (CostEstimator.estimate CostCategory.api_call (some 1000)).per_execution_cost =
      unitCostOf CostCategory.api_call * ((1000 : Int) : ℚ) ∧
    (CostEstimator.estimate CostCategory.api_call (some 1000)).severity = "high" := by
  have h := cost_estimator_formulas CostCategory.api_call (some 1000) (by decide)
  refine ⟨h.1, h.2.1, ?_⟩
  refine h.2.2.2.1 ?_
  rw [h.2.2.1]
  norm_num [unitCostOf_api]

/-- C3 counterexample: in the JavaScript and Java scanners a finding with
base severity "medium" inside a loop is not escalated even when every line
of its backward window carries a hot-path signal (the serialization
findings below stay "medium"). -/
theorem hot_path_escalation_cex :
    exJsHot.all (fun l => l.hotCtx) = true ∧
    (JsScan.scanInternal exJsHot).map (fun f => (f.rule_id, f.severity)) =
      [("JS004", "medium")] ∧
    exJavaHot.all (fun l => l.hotCtx) = true ∧
    (JavaScan.scanInternal exJavaHot).map (fun f => (f.rule_id, f.severity)) =
      [("JAVA003", "medium")] := by
  exact ⟨by decide, by decide, by decide, by decide⟩

/-- C3 (amended): severity escalation is monotonic and implemented only in
the Python scanner, where a "medium" finding becomes "high" exactly in a
hot path, a "high" finding is unchanged, no severity is ever lowered, and
outside a hot path every severity is kept; the JavaScript and Java
scanners compute the hot-path flag but their findings are identical for
any value of it (their hot-consulting rules are already "high", and their
"medium" rules stay "medium"). -/
theorem hot_path_escalation_behavior :
    (∀ hot : Bool, PyScan.applyHotPath hot "medium" = if hot then "high" else "medium") ∧
    (∀ hot : Bool, PyScan.applyHotPath hot "high" = "high") ∧
    (∀ (hot : Bool) (sev : String),
        PyScan.applyHotPath hot sev = sev ∨ PyScan.applyHotPath hot sev = "high") ∧
    (∀ sev : String, PyScan.applyHotPath false sev = sev) ∧
    (∀ (i : Nat) (l : JsScan.JsLine) (inLoop h1 h2 : Bool),
        JsScan.lineFindings i { l with hotCtx := h1 } inLoop =
          JsScan.lineFindings i { l with hotCtx := h2 } inLoop) ∧
    (∀ (i : Nat) (l : JavaScan.JavaLine) (inLoop h1 h2 : Bool),
        JavaScan.lineFindings i { l with hotCtx := h1 } inLoop =
          JavaScan.lineFindings i { l with hotCtx := h2 } inLoop) := by
  refine ⟨?_, ?_, ?_, ?_, ?_, ?_⟩
  · intro hot; cases hot <;> simp [PyScan.applyHotPath]
  · intro hot; cases hot <;> simp [PyScan.applyHotPath]
  · intro hot sev
    unfold PyScan.applyHotPath
    split_ifs with h
    · exact Or.inr rfl
    · exact Or.inl rfl
  · intro sev; simp [PyScan.applyHotPath]
  · intro i l inLoop h1 h2
    simp [JsScan.lineFindings, ite_self]
  · intro i l inLoop h1 h2
    simp [JavaScan.lineFindings, ite_self]

/-- C4: `cursor.execute("SELECT * FROM users")` (no pagination keyword in
the string) yields exactly one unbounded-query finding, of category
`database_read` and severity "medium"; with `LIMIT 100` in the query it
yields none; and for every source all of whose query-shaped calls have
statically unextractable first arguments no unbounded-query finding is
emitted at all. -/
theorem unbounded_query_detection :
    pythonScan exUnboundedSrc "<input>" = [exUnboundedFinding] ∧
    exUnboundedFinding.rule_id = "PY004" ∧
    exUnboundedFinding.category = "database_read" ∧
    exUnboundedFinding.severity = "medium" ∧
    pythonScan exBoundedSrc "<input>" = [] ∧
    (∀ (src : PySource) (fp : String),
        PyScan.noStaticQueryOpt src.parse = true →
        ∀ f ∈ pythonScan src fp, f.rule_id ≠ "PY004") := by
  refine ⟨pythonScan_exUnbounded, rfl, rfl, rfl, by decide, ?_⟩
  intro src fp h f hf
  unfold pythonScan at hf
  rcases hp : src.parse with _ | body
  · rw [hp] at hf; simp at hf
  · rw [hp] at hf
    obtain ⟨pf, hpf, rfl⟩ := List.mem_map.mp hf
    rw [hp] at h
    have h4 : pf.rule_id ≠ "PY004" :=
      PyScan.visitList_noStaticQuery (splitLines src.text) _ body h pf hpf
    exact h4

/-- C4 witness: an in-loop `db.query(q)` with a dynamic argument yields
its database finding but no unbounded-query finding. -/
theorem unbounded_query_detection_witness :
    PyScan.noStaticQueryOpt exDynamicSrc.parse = true ∧
    exDynamicFinding.rule_id ≠ "PY004" := by
  refine ⟨by decide, ?_⟩
  exact unbounded_query_detection.2.2.2.2.2 exDynamicSrc "<input>" (by decide)
    exDynamicFinding (by rw [pythonScan_exDynamic]; exact List.mem_singleton_self _)

/-- C5: a pattern rule matches an extracted call signature exactly when
the method pattern and method contain one another in either direction and
the receiver pattern is empty or contains / is contained in the receiver;
both sides of the comparison are lower-cased by the extraction step. -/
theorem call_pattern_matching_rule :
    (∀ receiver method receiver_pattern method_pattern : String,
        PyScan.matchesPattern receiver method receiver_pattern method_pattern = true ↔
          specRuleMatches receiver method receiver_pattern method_pattern) ∧
    (∀ id attr : String,
        PyScan.extractCallPattern (PyScan.Py.attribute (PyScan.Py.name id) attr) =
          some (strLower id, strLower attr) ∧
        PyScan.extractCallPattern (PyScan.Py.name id) = some ("", strLower id) ∧
        ∀ (v : PyScan.Py) (a : String),
          PyScan.extractCallPattern (PyScan.Py.attribute (PyScan.Py.attribute v a) attr) =
            some (strLower a, strLower attr)) := by
  constructor
  · intro r m rp mp
    unfold PyScan.matchesPattern specRuleMatches
    simp only [Bool.and_eq_true, Bool.or_eq_true, pyIn_iff, beq_iff_eq]
    tauto
  · exact fun id attr => ⟨rfl, rfl, fun v a => rfl⟩

/-- C6 counterexample: a single Python source line inside a loop holding
two `db.get` call sites yields two findings of category `database_read` on
that line, so "at most one Finding per category per line" fails. -/
theorem first_match_per_rule_cex :
    (pythonScan exTwoCallsSrc "<input>").countP
      (fun f => f.category == "database_read" && f.line_number == 1) = 2 := by
  decide

/-- C6 (amended): the at-most-one guarantee is per call site (Python) or
per line (JavaScript/Java) and per rule, not per category per line: each
category check of one Python call site and each rule check of one lexical
line yields at most one finding, and within each rule table only the first
matching entry is used (`List.find?` semantics); a line holding several
Python call sites can repeat a category. -/
theorem first_match_per_rule :
    (∀ (sl : List String) (st : PyScan.VState) (ln : Nat) (o m : String),
        ((PyScan.callLoopChecks sl st ln o m).countP
            (fun f => f.rule_id == "PY001") ≤ 1) ∧
        ((PyScan.callLoopChecks sl st ln o m).countP
            (fun f => f.rule_id == "PY002") ≤ 1) ∧
        ((PyScan.callLoopChecks sl st ln o m).countP
            (fun f => f.rule_id == "PY003") ≤ 1)) ∧
    (∀ (sl : List String) (st : PyScan.VState) (ln : Nat) (o m : String)
        (args : PyScan.PyList),
        (PyScan.checkUnboundedQuery sl st ln o m args).length ≤ 1) ∧
    (∀ (pats : List ((String × String) × String)) (o m : String),
        PyScan.findFirst pats o m =
          ((pats.find? fun e => PyScan.matchesPattern o m e.1.1 e.1.2).map fun e => e.2)) ∧
    (∀ (pats : List (String × String)) (hits : List Bool),
        JsScan.firstHit pats hits =
          (((pats.zip hits).find? fun e => e.2).map fun e => e.1.2)) ∧
    (∀ (i : Nat) (l : JsScan.JsLine) (b : Bool),
        ((JsScan.lineFindings i l b).countP (fun f => f.rule_id == "JS001") ≤ 1) ∧
        ((JsScan.lineFindings i l b).countP (fun f => f.rule_id == "JS002") ≤ 1) ∧
        ((JsScan.lineFindings i l b).countP (fun f => f.rule_id == "JS003") ≤ 1) ∧
        ((JsScan.lineFindings i l b).countP (fun f => f.rule_id == "JS004") ≤ 1)) ∧
    (∀ (i : Nat) (l : JavaScan.JavaLine) (b : Bool),
        ((JavaScan.lineFindings i l b).countP (fun f => f.rule_id == "JAVA001") ≤ 1) ∧
        ((JavaScan.lineFindings i l b).countP (fun f => f.rule_id == "JAVA002") ≤ 1) ∧
        ((JavaScan.lineFindings i l b).countP (fun f => f.rule_id == "JAVA003") ≤ 1) ∧
        ((JavaScan.lineFindings i l b).countP (fun f => f.rule_id == "JAVA004") ≤ 1) ∧
        ((JavaScan.lineFindings i l b).countP (fun f => f.rule_id == "JAVA005") ≤ 1)) :=
  ⟨callLoopChecks_countP, checkUnbounded_len, findFirst_eq_find, firstHit_eq_find,
    jsLineFindings_countP, javaLineFindings_countP⟩

/-- C7: a `.py`-style extension always resolves to Python regardless of
content; content scoring zero on every indicator list, with no mapped
extension, resolves to `Unknown`, and the resulting `ScanResult` carries
the detection error and an empty findings list. -/
theorem dispatcher_determinism :
    (∀ (p : String) (code : Option String),
        (strLower (Dispatch.pathSuffix p) = ".py" ∨
          strLower (Dispatch.pathSuffix p) = ".pyw") →
        Dispatch.detect_language (some p) code = Dispatch.Language.python) ∧
    (∀ (src : SourceInput) (fp : String),
        Dispatch.indicatorScore Dispatch.python_indicators (strLower src.text) = 0 →
        Dispatch.indicatorScore Dispatch.js_indicators (strLower src.text) = 0 →
        Dispatch.indicatorScore Dispatch.java_indicators (strLower src.text) = 0 →
        Dispatch.EXTENSION_MAP.lookup (strLower (Dispatch.pathSuffix fp)) = none →
        Dispatch.detect_language (some fp) (some src.text) = Dispatch.Language.unknown ∧
        scan_code src none fp =
          { file_path := fp, language := Dispatch.Language.unknown, findings := [],
            error := some "Could not detect programming language" }) := by
  constructor
  · intro p code h
    have hp : p ≠ "" := by
      intro he
      rw [he] at h
      rcases h with h | h <;> exact absurd h (by decide)
    rcases h with h | h
    all_goals simp only [Dispatch.detect_language, hp, ne_eq, not_false_eq_true,
      if_true, h]
    all_goals rfl
  · intro src fp h1 h2 h3 h4
    have hdc : Dispatch.detectFromContent src.text = Dispatch.Language.unknown := by
      simp only [Dispatch.detectFromContent]
      rw [h1, h2, h3]
      simp
    have hdet : Dispatch.detect_language (some fp) (some src.text) =
        Dispatch.Language.unknown := by
      simp only [Dispatch.detect_language]
      by_cases hfp : fp = ""
      · simp only [hfp]
        by_cases ht : src.text = ""
        · simp [ht]
        · simp [ht, hdc]
      · simp only [hfp, ne_eq, not_false_eq_true, if_true, h4]
        by_cases ht : src.text = ""
        · simp [ht]
        · simp [ht, hdc]
    exact ⟨hdet, by simp [scan_code, resolveLanguage, hdet]⟩

/-- C7 witness: `pkg/app.PY` with Java-looking content still resolves to
Python; indicator-free content with an unmapped extension produces the
`Unknown` error result. -/
theorem dispatcher_determinism_witness :
    Dispatch.detect_language (some "pkg/app.PY") (some "public class Main") =
      Dispatch.Language.python ∧
    scan_code exNoIndicatorSrc none "notes.txt" =
      { file_path := "notes.txt", language := Dispatch.Language.unknown, findings := [],
        error := some "Could not detect programming language" } := by
  refine ⟨dispatcher_determinism.1 "pkg/app.PY" (some "public class Main")
    (Or.inl (by decide)), ?_⟩
  exact (dispatcher_determinism.2 exNoIndicatorSrc "notes.txt"
    (by decide) (by decide) (by decide) (by decide)).2

/-- C8: an unparseable Python source scans to an empty finding list with
no error flag, unlike the detection-failure path, which sets the error
field (with an equally empty findings list). -/
theorem source_not_parseable_silent :
    (∀ (src : SourceInput) (fp : String), src.pyParse = none →
        scan_code src (some Dispatch.Language.python) fp =
          { file_path := fp, language := Dispatch.Language.python, findings := [],
            error := none }) ∧
    (∀ (src : SourceInput) (fp : String),
        Dispatch.detect_language (some fp) (some src.text) = Dispatch.Language.unknown →
        (scan_code src none fp).error = some "Could not detect programming language" ∧
        (scan_code src none fp).findings = []) := by
  constructor
  · intro src fp h
    simp [scan_code, resolveLanguage, runScanner, pythonScan, h]
  · intro src fp h
    simp [scan_code, resolveLanguage, h]

/-- C8 witness: the concrete unparseable source `def (` under an explicit
Python language tag, and the concrete indicator-free source under
detection. -/
theorem source_not_parseable_silent_witness :
    scan_code exBadPySrc (some Dispatch.Language.python) "bad.py" =
      { file_path := "bad.py", language := Dispatch.Language.python, findings := [],
        error := none } ∧
    (scan_code exNoIndicatorSrc none "notes.txt").error =
      some "Could not detect programming language" := by
  refine ⟨source_not_parseable_silent.1 exBadPySrc "bad.py" rfl, ?_⟩
  exact (source_not_parseable_silent.2 exNoIndicatorSrc "notes.txt" (by decide)).1

/-- C9: for every finding any of the three scanners produces, a cost
estimate is attached exactly when the finding's category has an entry in
the cost model's unit-cost table. -/
theorem cost_estimate_iff_table_entry :
    (∀ (src : PySource) (fp : String), ∀ f ∈ pythonScan src fp,
        f.estimated_cost.isSome = hasUnitCostEntry f.category) ∧
    (∀ (lines : List JsScan.JsLine) (fp : String), ∀ f ∈ jsScan lines fp,
        f.estimated_cost.isSome = hasUnitCostEntry f.category) ∧
    (∀ (lines : List JavaScan.JavaLine) (fp : String), ∀ f ∈ javaScan lines fp,
        f.estimated_cost.isSome = hasUnitCostEntry f.category) := by
  refine ⟨?_, ?_, ?_⟩
  · intro src fp f hf
    unfold pythonScan at hf
    rcases hp : src.parse with _ | body
    · rw [hp] at hf; simp at hf
    · rw [hp] at hf
      obtain ⟨pf, hpf, rfl⟩ := List.mem_map.mp hf
      have hc := PyScan.visitList_category (splitLines src.text) _ body pf hpf
      have h2 := pyConvert_cost fp pf hc
      rw [h2.1, h2.2]
  · intro lines fp f hf
    unfold jsScan JsScan.scanInternal at hf
    obtain ⟨jf, hjf, rfl⟩ := List.mem_map.mp hf
    have hc := JsScan.secondPass_category 0 _ jf hjf
    have h2 := jsConvert_cost fp jf hc
    rw [h2.1, h2.2]
  · intro lines fp f hf
    unfold javaScan JavaScan.scanInternal at hf
    obtain ⟨jf, hjf, rfl⟩ := List.mem_map.mp hf
    have hc := JavaScan.javaSecondPass_category 0 _ jf hjf
    have h2 := javaConvert_cost fp jf hc
    rw [h2.1, h2.2]

/-- C9 witness: the concrete unbounded-query finding has its estimate
attached and its category in the unit-cost table. -/
theorem cost_estimate_iff_table_entry_witness :
    exUnboundedFinding.estimated_cost.isSome = hasUnitCostEntry exUnboundedFinding.category :=
  cost_estimate_iff_table_entry.1 exUnboundedSrc "<input>" exUnboundedFinding
    (by rw [pythonScan_exUnbounded]; exact List.mem_singleton_self _)

/-- C10: calling the estimator with `iterations = 0` is identical to
calling it with no iteration count — the returned estimate carries
`iterations = 100` and the 100-iteration costs, so a zero-iteration
estimate cannot be expressed. -/
theorem estimate_zero_equals_default (category : CostCategory) :
    CostEstimator.estimate category (some 0) = CostEstimator.estimate category none ∧
    (CostEstimator.estimate category (some 0)).iterations = 100 ∧
    (CostEstimator.estimate category (some 0)).per_execution_cost =
      unitCostOf category * 100 := by
  refine ⟨rfl, rfl, ?_⟩
  show unitCostOf category * ((DEFAULT_LOOP_ITERATIONS : Int) : ℚ) = unitCostOf category * 100
  norm_num [DEFAULT_LOOP_ITERATIONS]
